import Mathlib

/-!
Verification of the Marxalone/Server4 analytics collector.

The repository contains several incremental rewrites of the same Express
server.  Three variants carry the logic the claims are about:

* `src/unnamed/part_000` (settings version "1.3.0"): connect/disconnect with
  per-instance session lists, quality issues, health scores and dataset-wide
  quality metrics.  Modelled in namespace `V130`.
* `src/unnamed/part_001` (settings version "2.1.0"): connect/heartbeat/
  disconnect/track/system-info with a heartbeat window, global heartbeat
  counter, instance-id storage, periodic maintenance and stale-instance
  cleanup.  Modelled in namespace `V210`.
* `src/api/server.js` (settings version "2.0.0"): connect with the
  deterministic `marxbot_{n+1}` id minting, disconnect-instances, maintenance.
  Modelled in namespace `V200`.

Modelling conventions:

* The dataset is the JSON document held in `db.json`.  Every request handler
  reads the document with `loadDB` (`JSON.parse`) and writes it back with
  `saveDB` (`JSON.stringify`).  JSON serialisation does not preserve object
  sharing, so after any round trip `instance.currentSession` is a detached
  copy of the session object that was pushed onto `instance.sessions`:
  mutating one does not change the other.  The model therefore keeps
  `currentSession` as an independent field.
* JavaScript objects are modelled as insertion-ordered association lists
  (`List (String × α)`); assigning a fresh key appends, assigning an existing
  key updates in place, matching JS object key order.
* JS numbers are modelled as `ℤ` for timestamps/durations, `ℕ` for counters
  and `ℚ` where division occurs.  Division corner cases (`NaN`, `Infinity`)
  are modelled point-wise where the source can reach them (see `rateGT`).
* `Math.round x` is `⌊x + 1/2⌋` (`jsRound`).
-/

/-- Instance status: the source stores the strings "connected" and
"disconnected" in the `status` field. -/
inductive Status where
  | connected : Status
  | disconnected : Status
deriving DecidableEq, Repr

/-- Lookup in a JS-object association list (first entry with the given key). -/
def aFind (k : String) : List (String × α) → Option α
  | [] => none
  | p :: r => if p.1 = k then some p.2 else aFind k r

/-- Update the first entry with the given key in place, as JS assignment to an
existing object key does. -/
def aUpd (k : String) (f : α → α) : List (String × α) → List (String × α)
  | [] => []
  | p :: r => if p.1 = k then (p.1, f p.2) :: r else p :: aUpd k f r

/-- JS `obj[k] = v`: update an existing key in place, else append. -/
def aSet (k : String) (v : α) (l : List (String × α)) : List (String × α) :=
  match aFind k l with
  | some _ => aUpd k (fun _ => v) l
  | none => l ++ [(k, v)]

/-- JS `obj[k] = (obj[k] || 0) + 1` on a counter map. -/
def aBump (k : String) (l : List (String × ℕ)) : List (String × ℕ) :=
  match aFind k l with
  | some _ => aUpd k (· + 1) l
  | none => l ++ [(k, 1)]

/-- JS `Math.round`: round half toward positive infinity. -/
def jsRound (q : ℚ) : ℤ := ⌊q + 1/2⌋

/-- Minimum of a duration list, used only on nonempty lists
(`Math.min(...durations)`). -/
def listMinZ : List ℤ → ℤ
  | [] => 0
  | d :: r => r.foldl min d

/-- Maximum of a duration list, used only on nonempty lists
(`Math.max(...durations)`). -/
def listMaxZ : List ℤ → ℤ
  | [] => 0
  | d :: r => r.foldl max d

/-- String literal pool (quality-issue tags, event-type strings, reasons). -/
def tagFrequent : String := "frequent_reconnections"

def tagShort : String := "short_sessions"

def tagIp : String := "ip_instability"

def tagStable : String := "stable"

def evConnection : String := "connection"

def evDisconnection : String := "disconnection"

def reasonNormal : String := "normal"

namespace V130

/-! Model of `src/unnamed/part_000` (version "1.3.0").  Its `../config` is
`src/unnamed/part_002`: `TIMEOUTS.concurrent = 30 * 60 * 1000`. -/

/-- `TIMEOUTS.concurrent` from `src/unnamed/part_002`. -/
def concurrentTimeout : ℤ := 1800000

/-- One entry of `instance.sessions` (the source field `end` is a Lean keyword
and is modelled as `endTime`). -/
structure Session where
  start : ℤ
  endTime : Option ℤ
  duration : Option ℤ
  ip : String
  userAgent : String
  location : Option String
  disconnectReason : Option String
deriving DecidableEq, Repr

structure Instance where
  firstSeen : ℤ
  lastActive : ℤ
  lastReconnect : ℤ
  status : Status
  userAgent : String
  ipAddress : String
  ipHistory : List String
  userId : Option String
  connectionCount : ℕ
  disconnectionCount : ℕ
  sessions : List Session
  currentSession : Option Session
  qualityIssues : List String
  avgSessionDuration : ℚ
  healthScore : ℤ
deriving DecidableEq, Repr

structure User where
  firstSeen : ℤ
  lastActive : ℤ
  instances : List String
deriving DecidableEq, Repr

/-- One entry of `statistics.connectionEvents`.  Connection events carry
`isReconnection`, disconnection events carry `reason` and `duration`. -/
structure ConnEvent where
  type : String
  instanceId : String
  timestamp : ℤ
  isReconnection : Option Bool
  reason : Option String
  duration : Option ℤ
deriving DecidableEq, Repr

structure SessionMetrics where
  avgDuration : ℚ
  minDuration : ℤ
  maxDuration : ℤ
  failedConnections : ℕ
deriving DecidableEq, Repr

structure QualityMetrics where
  stabilityScore : ℚ
  healthScore : ℤ
  connectionQuality : ℚ
deriving DecidableEq, Repr

structure Statistics where
  totalConnections : ℕ
  currentConnections : ℕ
  peakConnections : ℕ
  disconnections : ℕ
  reconnections : ℕ
  totalMessages : ℕ
  dailyActive : List (String × ℕ)
  userAgents : List (String × ℕ)
  connectionEvents : List ConnEvent
  sessionMetrics : SessionMetrics
  qualityMetrics : QualityMetrics
deriving DecidableEq, Repr

structure DB where
  instances : List (String × Instance)
  users : List (String × User)
  statistics : Statistics
deriving DecidableEq, Repr

/-- `initialDB` of part_000 (the `settings` block only holds constant strings
and is not represented). -/
def initial : DB :=
  { instances := []
    users := []
    statistics :=
      { totalConnections := 0
        currentConnections := 0
        peakConnections := 0
        disconnections := 0
        reconnections := 0
        totalMessages := 0
        dailyActive := []
        userAgents := []
        connectionEvents := []
        sessionMetrics :=
          { avgDuration := 0, minDuration := 0, maxDuration := 0, failedConnections := 0 }
        qualityMetrics :=
          { stabilityScore := 100, healthScore := 100, connectionQuality := 100 } } }

/-- `sessions.filter(s => s.duration).map(s => s.duration)`: JS truthiness
drops both `null` and a duration of exactly `0`. -/
def durations (sessions : List Session) : List ℤ :=
  sessions.filterMap (fun s => s.duration.bind (fun d => if d = 0 then none else some d))

/-- Average of a nonempty duration list, as a rational. -/
def avgZ (l : List ℤ) : ℚ := ((l.sum : ℤ) : ℚ) / (l.length : ℚ)

/-- `detectConnectionQuality(instance, now)` from part_000. -/
def detectConnectionQuality (i : Instance) (now : ℤ) : List String :=
  let issues :=
    (if i.connectionCount > 5 ∧ now - i.firstSeen < 3600000 then [tagFrequent] else []) ++
    (if i.avgSessionDuration < 30000 then [tagShort] else []) ++
    (if i.ipHistory.length > 1 then [tagIp] else [])
  if issues.length > 0 then issues else [tagStable]

/-- The test `disconnectionCount / connectionCount > 0.3` under JS number
semantics: with `connectionCount = 0` the quotient is `NaN` (comparison false)
when `disconnectionCount = 0`, and `Infinity` (comparison true) otherwise. -/
def rateGT (dc cc : ℕ) : Bool :=
  if cc = 0 then decide (0 < dc) else decide ((dc : ℚ) / (cc : ℚ) > 3/10)

/-- The successive deductions applied to the starting score of 100 by
`calculateHealthScore(instance)` in part_000. -/
def healthDeductions (i : Instance) : ℚ :=
  (if tagFrequent ∈ i.qualityIssues then 30 else 0)
    + (if tagShort ∈ i.qualityIssues then 20 else 0)
    + (if tagIp ∈ i.qualityIssues then 15 else 0)
    + (if rateGT i.disconnectionCount i.connectionCount then 20 else 0)
    + (if i.avgSessionDuration < 60000 then (1 - i.avgSessionDuration / 60000) * 15 else 0)

/-- `calculateHealthScore(instance)` from part_000:
`Math.max(0, Math.round(score))` after the deductions. -/
def calculateHealthScore (i : Instance) : ℤ :=
  max 0 (jsRound (100 - healthDeductions i))

/-- Durations of all recorded sessions across all instances
(`instances.flatMap(i => i.sessions.filter(s => s.duration)...)`). -/
def allDurations (db : DB) : List ℤ :=
  db.instances.flatMap (fun p => durations p.2.sessions)

/-- Count of abnormal disconnection events
(`e.type === 'disconnection' && e.reason !== 'normal'`). -/
def failedConnections (db : DB) : ℕ :=
  (db.statistics.connectionEvents.filter
    (fun e => decide (e.type = evDisconnection ∧ e.reason ≠ some reasonNormal))).length

/-- `calculateStabilityScore(db)` from part_000. -/
def calculateStabilityScore (db : DB) : ℚ :=
  if db.statistics.totalConnections > 0 then
    max 0 (100 - (failedConnections db : ℚ) / (db.statistics.totalConnections : ℚ) * 100)
  else 100

/-- Count of connection-type events in `statistics.connectionEvents`
(the `totalSessions` denominator of `calculateConnectionQuality`). -/
def connectionEventCount (db : DB) : ℕ :=
  (db.statistics.connectionEvents.filter (fun e => decide (e.type = evConnection))).length

/-- `calculateConnectionQuality(db)` from part_000. -/
def calculateConnectionQuality (db : DB) : ℚ :=
  if connectionEventCount db > 0 then
    max 0 (100 - (failedConnections db : ℚ) / (connectionEventCount db : ℚ) * 100)
  else 100

/-- The instances' cached `healthScore` fields. -/
def healthScores (db : DB) : List ℤ := db.instances.map (fun p => p.2.healthScore)

/-- The dataset-wide health score written by `updateQualityMetrics`: the
rounded mean of the instances' cached `healthScore` fields, 100 when there are
no instances. -/
def datasetHealthScore (db : DB) : ℤ :=
  jsRound (if (healthScores db).length > 0 then
    (((healthScores db).sum : ℤ) : ℚ) / ((healthScores db).length : ℚ) else 100)

/-- `updateQualityMetrics(db)` from part_000: `sessionMetrics` is rewritten
only when at least one (truthy) session duration exists; `qualityMetrics` is
always rewritten. -/
def updateQualityMetrics (db : DB) : DB :=
  let durs := allDurations db
  let sm :=
    if durs.length > 0 then
      { avgDuration := avgZ durs, minDuration := listMinZ durs, maxDuration := listMaxZ durs
        failedConnections := failedConnections db }
    else db.statistics.sessionMetrics
  { db with statistics :=
      { db.statistics with
        sessionMetrics := sm
        qualityMetrics :=
          { stabilityScore := calculateStabilityScore db
            healthScore := datasetHealthScore db
            connectionQuality := calculateConnectionQuality db } } }

/-- Number of instances counted as currently connected by
`updateConnectionStats` in part_000. -/
def currentCount (db : DB) (now : ℤ) : ℕ :=
  (db.instances.filter
    (fun p => decide (p.2.status = Status.connected ∧ now - p.2.lastActive < concurrentTimeout))).length

/-- `updateConnectionStats(db, now)` from part_000. -/
def updateConnectionStats (db : DB) (now : ℤ) : DB :=
  let c := currentCount db now
  { db with statistics :=
      { db.statistics with
        currentConnections := c
        peakConnections :=
          if c > db.statistics.peakConnections then c else db.statistics.peakConnections } }

/-- The session object created by part_000's connect handler. -/
def newSession (userAgent ip : String) (location : Option String) (now : ℤ) : Session :=
  { start := now, endTime := none, duration := none, ip := ip,
    userAgent := userAgent, location := location, disconnectReason := none }

/-- The instance record created by part_000's connect handler for a new
instance id. -/
def freshInstance (userId : Option String) (userAgent ip : String)
    (location : Option String) (now : ℤ) : Instance :=
  { firstSeen := now, lastActive := now, lastReconnect := now,
    status := Status.connected, userAgent := userAgent, ipAddress := ip,
    ipHistory := [ip], userId := userId, connectionCount := 1,
    disconnectionCount := 0, sessions := [newSession userAgent ip location now],
    currentSession := some (newSession userAgent ip location now),
    qualityIssues := [], avgSessionDuration := 0, healthScore := 100 }

/-- The `if (instance.status === 'disconnected')` block of part_000's connect
handler: close the stale `currentSession` copy (the listed sessions are
untouched, see the module comment) and refresh `avgSessionDuration` from the
(truthy) listed durations. -/
def closeStale (inst : Instance) (now : ℤ) : Instance :=
  if inst.status = Status.disconnected then
    match inst.currentSession with
    | some s =>
        { inst with
          currentSession := some { s with endTime := some now, duration := some (now - s.start) }
          avgSessionDuration :=
            if (durations inst.sessions).length > 0 then avgZ (durations inst.sessions)
            else inst.avgSessionDuration }
    | none => inst
  else inst

/-- The update applied by part_000's connect handler to an existing
instance. -/
def reconnectInstance (inst : Instance) (userAgent ip : String)
    (location : Option String) (now : ℤ) : Instance :=
  let ipH := if ip ∈ inst.ipHistory then inst.ipHistory else inst.ipHistory ++ [ip]
  let inst1 := closeStale inst now
  let inst2 :=
    { inst1 with
      lastActive := now, lastReconnect := now, status := Status.connected
      connectionCount := inst1.connectionCount + 1, ipHistory := ipH
      currentSession := some (newSession userAgent ip location now)
      sessions := inst1.sessions ++ [newSession userAgent ip location now] }
  let inst3 := { inst2 with qualityIssues := detectConnectionQuality inst2 now }
  { inst3 with healthScore := calculateHealthScore inst3 }

/-- `POST /api/connect` of part_000 (validated request: `instanceId` present).
The stale `currentSession` closed on a reconnect is the detached copy produced
by the JSON round trip; the entries of `sessions` are not affected by it. -/
def connect (db : DB) (instanceId : String) (userId : Option String)
    (userAgent ip : String) (location : Option String) (now : ℤ) (today : String) : DB :=
  let isReconnection := (aFind instanceId db.instances).isSome
  let db1 :=
    match aFind instanceId db.instances with
    | none =>
        { db with
          instances := db.instances ++
            [(instanceId, freshInstance userId userAgent ip location now)],
          statistics :=
            { db.statistics with totalConnections := db.statistics.totalConnections + 1 } }
    | some inst =>
        { db with
          instances := aUpd instanceId
            (fun _ => reconnectInstance inst userAgent ip location now) db.instances
          statistics :=
            if inst.status = Status.disconnected then
              { db.statistics with reconnections := db.statistics.reconnections + 1 }
            else db.statistics }
  let db2 :=
    match userId with
    | some uid =>
        if (aFind uid db1.users).isSome then db1
        else
          { db1 with users := db1.users ++
              [(uid, ({ firstSeen := now, lastActive := now, instances := [instanceId] } : User))] }
    | none => db1
  let db3 :=
    { db2 with statistics :=
        { db2.statistics with
          userAgents := aBump userAgent db2.statistics.userAgents
          dailyActive := aBump today db2.statistics.dailyActive
          connectionEvents := db2.statistics.connectionEvents ++
            [{ type := evConnection, instanceId := instanceId, timestamp := now,
               isReconnection := some isReconnection, reason := none, duration := none }] } }
  updateQualityMetrics (updateConnectionStats db3 now)

/-- The update applied by part_000's disconnect handler to the found
instance: close the detached `currentSession` copy with the disconnect
reason, refresh `avgSessionDuration`, mark disconnected, count, rescore. -/
def disconnectInstance (inst : Instance) (reason : String) (now : ℤ) : Instance :=
  let inst1 :=
    match inst.currentSession with
    | some s =>
        { inst with
          currentSession := some { s with
            endTime := some now, duration := some (now - s.start),
            disconnectReason := some reason }
          avgSessionDuration :=
            if (durations inst.sessions).length > 0 then avgZ (durations inst.sessions)
            else inst.avgSessionDuration }
    | none => inst
  let inst2 :=
    { inst1 with
      status := Status.disconnected, lastActive := now,
      disconnectionCount := inst1.disconnectionCount + 1 }
  { inst2 with healthScore := calculateHealthScore inst2 }

/-- `POST /api/disconnect` of part_000.  Closing `currentSession` only touches
the detached copy; the listed sessions keep their null `end`/`duration`. -/
def disconnect (db : DB) (instanceId reason : String) (now : ℤ) : DB :=
  match aFind instanceId db.instances with
  | none => db
  | some inst =>
      let inst3 := disconnectInstance inst reason now
      let db1 :=
        { db with
          instances := aUpd instanceId (fun _ => inst3) db.instances
          statistics :=
            { db.statistics with
              disconnections := db.statistics.disconnections + 1
              connectionEvents := db.statistics.connectionEvents ++
                [{ type := evDisconnection, instanceId := instanceId, timestamp := now,
                   isReconnection := none, reason := some reason,
                   duration := inst3.currentSession.bind (fun s => s.duration) }] } }
      updateQualityMetrics (updateConnectionStats db1 now)

/-- `POST /api/track` of part_000 (validated request). -/
def track (db : DB) (instanceId userId : String) (now : ℤ) : DB :=
  let db1 :=
    match aFind userId db.users with
    | none =>
        { db with users := db.users ++
            [(userId, ({ firstSeen := now, lastActive := now, instances := [instanceId] } : User))] }
    | some u =>
        let u1 :=
          { u with
            lastActive := now,
            instances :=
              if instanceId ∈ u.instances then u.instances else u.instances ++ [instanceId] }
        { db with users := aUpd userId (fun _ => u1) db.users }
  let db2 :=
    match aFind instanceId db1.instances with
    | none => db1
    | some inst =>
        { db1 with instances := aUpd instanceId (fun _ => { inst with lastActive := now }) db1.instances }
  { db2 with statistics :=
      { db2.statistics with totalMessages := db2.statistics.totalMessages + 1 } }

/-- One valid inbound event of the part_000 server. -/
inductive Event where
  | connect (instanceId : String) (userId : Option String) (userAgent ip : String)
      (location : Option String) (now : ℤ) (today : String) : Event
  | disconnect (instanceId reason : String) (now : ℤ) : Event
  | track (instanceId userId : String) (now : ℤ) : Event

/-- Process one event. -/
def step (db : DB) : Event → DB
  | Event.connect i u ua ip loc now today => connect db i u ua ip loc now today
  | Event.disconnect i r now => disconnect db i r now
  | Event.track i u now => track db i u now

/-- Process a sequence of events. -/
def replay (db : DB) (evs : List Event) : DB := evs.foldl step db

/-- Datasets reachable from the initial dataset by any event sequence. -/
inductive Reachable : DB → Prop where
  | init : Reachable initial
  | step (db : DB) (e : Event) : Reachable db → Reachable (step db e)

/-- The instance's `connectionCount`, 0 for an absent id. -/
def instCc (db : DB) (id : String) : ℕ :=
  ((aFind id db.instances).map (fun i => i.connectionCount)).getD 0

/-- The instance's `disconnectionCount`, 0 for an absent id. -/
def instDc (db : DB) (id : String) : ℕ :=
  ((aFind id db.instances).map (fun i => i.disconnectionCount)).getD 0

/-- Number of sessions in a list with no `end`. -/
def openCount (l : List Session) : ℕ :=
  (l.filter (fun s => s.endTime = none)).length

/-- Number of the instance's recorded sessions with no `end`, 0 for an absent
id. -/
def openSessions (db : DB) (id : String) : ℕ :=
  ((aFind id db.instances).map (fun i => openCount i.sessions)).getD 0

/-- The instance's `status`, `none` for an absent id. -/
def instStatus (db : DB) (id : String) : Option Status :=
  (aFind id db.instances).map (fun i => i.status)

/-- Maximum value `currentConnections` takes along a replay, including its
value in the start state. -/
def maxCurrent (db : DB) (evs : List Event) : ℕ :=
  (evs.foldl
    (fun acc e =>
      let db' := step acc.2 e
      (max acc.1 db'.statistics.currentConnections, db'))
    (db.statistics.currentConnections, db)).1

end V130

namespace V210

/-! Model of `src/unnamed/part_001` (version "2.1.0"). -/

/-- `CONFIG.TIMEOUTS.concurrent` of part_001. -/
def concurrentTimeout : ℤ := 300000

/-- `CONFIG.TIMEOUTS.heartbeat` of part_001. -/
def heartbeatTimeout : ℤ := 120000

/-- `CONFIG.TIMEOUTS.disconnected` of part_001. -/
def disconnectedTimeout : ℤ := 86400000

structure LastDisconnect where
  timestamp : ℤ
  reason : String
deriving DecidableEq, Repr

structure Instance where
  id : String
  firstSeen : ℤ
  lastActive : ℤ
  lastHeartbeat : ℤ
  status : Status
  userAgent : String
  ipAddress : String
  userId : String
  connectionCount : ℕ
  lastDisconnect : Option LastDisconnect
  systemInfo : Option String
deriving DecidableEq, Repr

structure User where
  id : String
  firstSeen : ℤ
  lastActive : ℤ
  instances : List String
  totalMessages : ℕ
  totalReactions : ℕ
deriving DecidableEq, Repr

/-- One entry of `statistics.systemInfo`: the reported payload plus
`lastUpdated`. -/
structure SysInfoEntry where
  payload : String
  lastUpdated : ℤ
deriving DecidableEq, Repr

structure Statistics where
  totalConnections : ℕ
  currentConnections : ℕ
  peakConnections : ℕ
  disconnections : ℕ
  reconnections : ℕ
  totalMessages : ℕ
  heartbeats : ℕ
  dailyActive : List (String × ℕ)
  dailyDisconnections : List (String × ℕ)
  userAgents : List (String × ℕ)
  messageTypes : List (String × ℕ)
  groupEvents : List (String × ℕ)
  statusUpdates : List (String × ℕ)
  messageReactions : List (String × ℕ)
  errors : List (String × ℕ)
  systemInfo : List (String × SysInfoEntry)
deriving DecidableEq, Repr

structure Settings where
  version : String
  lastMaintenance : Option String
deriving DecidableEq, Repr

structure DB where
  instances : List (String × Instance)
  users : List (String × User)
  statistics : Statistics
  settings : Settings
deriving DecidableEq, Repr

/-- The server state: the persisted dataset plus the contents of
`instance_storage.json` (written by `saveInstanceStorage`). -/
structure State where
  db : DB
  storage : List (String × String)
deriving DecidableEq, Repr

/-- `initialDB` of part_001. -/
def initialDB : DB :=
  { instances := []
    users := []
    statistics :=
      { totalConnections := 0, currentConnections := 0, peakConnections := 0
        disconnections := 0, reconnections := 0, totalMessages := 0, heartbeats := 0
        dailyActive := [], dailyDisconnections := [], userAgents := []
        messageTypes := [], groupEvents := [], statusUpdates := []
        messageReactions := [], errors := [], systemInfo := [] }
    settings := { version := "2.1.0", lastMaintenance := none } }

def initialState : State := { db := initialDB, storage := [] }

/-- `loadInstanceStorage` of part_001: `fs` is `require('fs').promises`, which
has no `existsSync`; the call throws a `TypeError` that the `catch` handler
turns into `{}`.  The stored registry file is therefore never successfully
read back. -/
def loadInstanceStorage : List (String × String) := []

/-- Count of instances considered currently connected by part_001's
`updateConnectionStats`: connected, recently active, and recently
heartbeating. -/
def currentCount (db : DB) (now : ℤ) : ℕ :=
  (db.instances.filter
    (fun p => decide (p.2.status = Status.connected ∧
      now - p.2.lastActive < concurrentTimeout ∧
      now - p.2.lastHeartbeat < heartbeatTimeout))).length

/-- `updateConnectionStats(db, now)` from part_001. -/
def updateConnectionStats (db : DB) (now : ℤ) : DB :=
  let c := currentCount db now
  { db with statistics :=
      { db.statistics with
        currentConnections := c
        peakConnections :=
          if c > db.statistics.peakConnections then c else db.statistics.peakConnections } }

/-- Instance-id resolution of part_001's `POST /api/connect`: the caller's id
if supplied, else the (always empty, see `loadInstanceStorage`) registry entry
for the user; a fresh id is minted whenever the resolved id is not a key of
`db.instances`.  The mint (`marxbot_${Date.now()}_${random}`) is an input of
the model.  Returns the id to use and whether the registry was written. -/
def resolveId (db : DB) (userId : String) (suppliedId : Option String)
    (mintId : String) : String × Bool :=
  let resolved :=
    match suppliedId with
    | some id => some id
    | none => aFind userId loadInstanceStorage
  match resolved with
  | some id => if (aFind id db.instances).isSome then (id, false) else (mintId, true)
  | none => (mintId, true)

/-- The instance record created by part_001's connect handler for a new
instance id. -/
def freshInstance (instanceId userId userAgent ip : String) (now : ℤ) : Instance :=
  { id := instanceId, firstSeen := now, lastActive := now, lastHeartbeat := now,
    status := Status.connected, userAgent := userAgent, ipAddress := ip,
    userId := userId, connectionCount := 1, lastDisconnect := none,
    systemInfo := none }

/-- The update applied by part_001's connect handler to an existing
instance. -/
def connectUpdate (inst : Instance) (now : ℤ) : Instance :=
  { inst with
    lastActive := now, lastHeartbeat := now, status := Status.connected,
    connectionCount := inst.connectionCount + 1 }

/-- The user record created by part_001's connect and track handlers for an
unknown userId. -/
def freshUser (userId instanceId : String) (now : ℤ) : User :=
  { id := userId, firstSeen := now, lastActive := now, instances := [instanceId],
    totalMessages := 0, totalReactions := 0 }

/-- `POST /api/connect` of part_001 (validated request). -/
def connect (st : State) (userId : String) (suppliedId : Option String)
    (userAgent ip mintId : String) (now : ℤ) (today : String) : State :=
  let r := resolveId st.db userId suppliedId mintId
  let instanceId := r.1
  let storage1 := if r.2 then aSet userId instanceId st.storage else st.storage
  let db := st.db
  let db1 :=
    match aFind instanceId db.instances with
    | none =>
        { db with
          instances := db.instances ++
            [(instanceId, freshInstance instanceId userId userAgent ip now)]
          statistics :=
            { db.statistics with totalConnections := db.statistics.totalConnections + 1 } }
    | some inst =>
        { db with
          instances := aUpd instanceId (fun _ => connectUpdate inst now) db.instances
          statistics :=
            if inst.status = Status.disconnected then
              { db.statistics with reconnections := db.statistics.reconnections + 1 }
            else db.statistics }
  let db2 :=
    match aFind userId db1.users with
    | none =>
        { db1 with users := db1.users ++ [(userId, freshUser userId instanceId now)] }
    | some u =>
        if instanceId ∈ u.instances then db1
        else
          { db1 with users := (aUpd userId
              (fun _ => { u with instances := u.instances ++ [instanceId] })
              db1.users) }
  let db3 :=
    { db2 with statistics :=
        { db2.statistics with
          userAgents := aBump userAgent db2.statistics.userAgents
          dailyActive := aBump today db2.statistics.dailyActive } }
  { db := updateConnectionStats db3 now, storage := storage1 }

/-- `POST /api/heartbeat` of part_001: a no-op for an unknown instance. -/
def heartbeat (st : State) (instanceId : String) (now : ℤ) : State :=
  match aFind instanceId st.db.instances with
  | none => st
  | some inst =>
      let inst1 := { inst with lastHeartbeat := now, lastActive := now }
      { st with db :=
          { st.db with
            instances := aUpd instanceId (fun _ => inst1) st.db.instances
            statistics :=
              { st.db.statistics with heartbeats := st.db.statistics.heartbeats + 1 } } }

/-- `POST /api/disconnect` of part_001: a no-op for an unknown instance. -/
def disconnect (st : State) (instanceId reason : String) (now : ℤ) (today : String) : State :=
  match aFind instanceId st.db.instances with
  | none => st
  | some inst =>
      let inst1 :=
        { inst with
          status := Status.disconnected, lastActive := now,
          lastDisconnect := some { timestamp := now, reason := reason } }
      let db1 :=
        { st.db with
          instances := aUpd instanceId (fun _ => inst1) st.db.instances
          statistics :=
            { st.db.statistics with
              disconnections := st.db.statistics.disconnections + 1
              dailyDisconnections := aBump today st.db.statistics.dailyDisconnections } }
      { st with db := updateConnectionStats db1 now }

/-- JS string interpolation of a possibly-undefined value. -/
def jsShow (o : Option String) : String :=
  match o with
  | some s => s
  | none => "undefined"

def etMessage : String := "message"

def etGroupUpdate : String := "group_update"

def etStatusUpdate : String := "status_update"

def etMessageReaction : String := "message_reaction"

def etHeartbeat : String := "heartbeat"

/-- `POST /api/track` of part_001 (validated request).  The user is upserted
first, then the instance's `lastActive` refreshed, then the event type
dispatched; unrecognised or missing event types fall through. -/
def track (st : State) (instanceId userId : String) (eventType messageType : Option String)
    (action groupId status reaction : Option String) (now : ℤ) : State :=
  let db := st.db
  let db1 :=
    match aFind userId db.users with
    | none =>
        { db with users := db.users ++ [(userId, freshUser userId instanceId now)] }
    | some u =>
        let u1 :=
          { u with
            lastActive := now,
            instances :=
              if instanceId ∈ u.instances then u.instances
              else u.instances ++ [instanceId] }
        { db with users := aUpd userId (fun _ => u1) db.users }
  let db2 :=
    match aFind instanceId db1.instances with
    | none => db1
    | some inst =>
        let inst1 := { inst with lastActive := now }
        { db1 with instances := aUpd instanceId (fun _ => inst1) db1.instances }
  let db3 :=
    if eventType = some etMessage then
      let dbA :=
        { db2 with
          statistics :=
            { db2.statistics with totalMessages := db2.statistics.totalMessages + 1 }
          users := aUpd userId (fun u => { u with totalMessages := u.totalMessages + 1 }) db2.users }
      match messageType with
      | some mt =>
          { dbA with statistics :=
              { dbA.statistics with messageTypes := aBump mt dbA.statistics.messageTypes } }
      | none => dbA
    else if eventType = some etGroupUpdate then
      { db2 with statistics :=
          { db2.statistics with
            groupEvents :=
              aBump (jsShow action ++ "_" ++ jsShow groupId) db2.statistics.groupEvents } }
    else if eventType = some etStatusUpdate then
      { db2 with statistics :=
          { db2.statistics with
            statusUpdates := aBump (jsShow status) db2.statistics.statusUpdates } }
    else if eventType = some etMessageReaction then
      { db2 with
        statistics :=
          { db2.statistics with
            messageReactions := aBump (jsShow reaction) db2.statistics.messageReactions }
        users := aUpd userId (fun u => { u with totalReactions := u.totalReactions + 1 }) db2.users }
    else if eventType = some etHeartbeat then
      match aFind instanceId db2.instances with
      | none => db2
      | some inst =>
          let inst1 := { inst with lastHeartbeat := now }
          { db2 with
            instances := aUpd instanceId (fun _ => inst1) db2.instances
            statistics :=
              { db2.statistics with heartbeats := db2.statistics.heartbeats + 1 } }
    else db2
  { st with db := db3 }

/-- `POST /api/system-info` of part_001: a no-op for an unknown instance. -/
def systemInfo (st : State) (instanceId payload : String) (now : ℤ) : State :=
  match aFind instanceId st.db.instances with
  | none => st
  | some inst =>
      let inst1 := { inst with systemInfo := some payload, lastHeartbeat := now }
      let entry : SysInfoEntry := { payload := payload, lastUpdated := now }
      { st with db :=
          { st.db with
            instances := aUpd instanceId (fun _ => inst1) st.db.instances
            statistics :=
              { st.db.statistics with
                systemInfo := aSet instanceId entry st.db.statistics.systemInfo } } }

/-- One valid inbound event of the part_001 server. -/
inductive Event where
  | connect (userId : String) (suppliedId : Option String) (userAgent ip mintId : String)
      (now : ℤ) (today : String) : Event
  | heartbeat (instanceId : String) (now : ℤ) : Event
  | disconnect (instanceId reason : String) (now : ℤ) (today : String) : Event
  | track (instanceId userId : String) (eventType messageType : Option String)
      (action groupId status reaction : Option String) (now : ℤ) : Event
  | systemInfo (instanceId payload : String) (now : ℤ) : Event

/-- Process one event. -/
def step (st : State) : Event → State
  | Event.connect u sid ua ip mint now today => connect st u sid ua ip mint now today
  | Event.heartbeat i now => heartbeat st i now
  | Event.disconnect i r now today => disconnect st i r now today
  | Event.track i u et mt a g s r now => track st i u et mt a g s r now
  | Event.systemInfo i p now => systemInfo st i p now

/-- Process a sequence of events. -/
def replay (st : State) (evs : List Event) : State := evs.foldl step st

/-- `cleanupInactiveInstances` of part_001: deletes instances whose
`lastActive` is older than the 24-hour `disconnected` timeout; nothing else in
the dataset is touched. -/
def cleanupInactiveInstances (db : DB) (now : ℤ) : DB :=
  { db with instances :=
      db.instances.filter (fun p => decide (¬ now - p.2.lastActive > disconnectedTimeout)) }

/-- `ensurePersistentData` (part_001 and server.js): the dataset-visible
effect is setting `settings.lastMaintenance`; the backup snapshot and pruning
of old backup files act on the file system outside the dataset. -/
def ensurePersistentData (db : DB) (ts : String) : DB :=
  { db with settings := { db.settings with lastMaintenance := some ts } }

/-- The instance's `connectionCount`, 0 for an absent id. -/
def instCc (st : State) (id : String) : ℕ :=
  ((aFind id st.db.instances).map (fun i => i.connectionCount)).getD 0

/-- The instance's `status`, `none` for an absent id. -/
def instStatus (st : State) (id : String) : Option Status :=
  (aFind id st.db.instances).map (fun i => i.status)

end V210

namespace V200

/-! Model of `src/api/server.js` (version "2.0.0").  Its `../config` is
`src/unnamed/part_002`: `TIMEOUTS.concurrent = 30 * 60 * 1000`. -/

/-- `TIMEOUTS.concurrent` from `src/unnamed/part_002`. -/
def concurrentTimeout : ℤ := 1800000

structure Instance where
  id : String
  firstSeen : ℤ
  lastActive : ℤ
  status : Status
  userAgent : String
  ipAddress : String
  userId : String
  connectionCount : ℕ
  lastDisconnect : Option V210.LastDisconnect
deriving DecidableEq, Repr

structure Statistics where
  totalConnections : ℕ
  currentConnections : ℕ
  peakConnections : ℕ
  disconnections : ℕ
  totalMessages : ℕ
  dailyActive : List (String × ℕ)
  dailyDisconnections : List (String × ℕ)
  userAgents : List (String × ℕ)
deriving DecidableEq, Repr

structure DB where
  instances : List (String × Instance)
  users : List (String × V210.User)
  statistics : Statistics
deriving DecidableEq, Repr

/-- `initialDB` of server.js (only the fields the modelled handlers touch). -/
def initial : DB :=
  { instances := []
    users := []
    statistics :=
      { totalConnections := 0, currentConnections := 0, peakConnections := 0
        disconnections := 0, totalMessages := 0
        dailyActive := [], dailyDisconnections := [], userAgents := [] } }

/-- The id `marxbot_${Object.keys(db.instances).length + 1}` minted by
server.js's connect handler. -/
def mintName (db : DB) : String :=
  "marxbot_" ++ toString (db.instances.length + 1)

/-- Instance-id resolution of server.js's `POST /api/connect`:
`if (!instanceId || db.instances[instanceId]) instanceId = marxbot_{n+1}`.
A caller-supplied id is kept only when it is not already a key; there is no
registry.  Returns the id to use and whether it was minted. -/
def resolveId (db : DB) (suppliedId : Option String) : String × Bool :=
  match suppliedId with
  | some id => if (aFind id db.instances).isSome then (mintName db, true) else (id, false)
  | none => (mintName db, true)

/-- `updateConnectionStats(db, now)` from server.js. -/
def updateConnectionStats (db : DB) (now : ℤ) : DB :=
  let c := (db.instances.filter
    (fun p => decide (p.2.status = Status.connected ∧
      now - p.2.lastActive < concurrentTimeout))).length
  { db with statistics :=
      { db.statistics with
        currentConnections := c
        peakConnections :=
          if c > db.statistics.peakConnections then c else db.statistics.peakConnections } }

/-- `POST /api/connect` of server.js (validated request). -/
def connect (db : DB) (userId : String) (suppliedId : Option String)
    (userAgent ip : String) (now : ℤ) (today : String) : DB :=
  let instanceId := (resolveId db suppliedId).1
  let db1 :=
    match aFind instanceId db.instances with
    | none =>
        { db with
          instances := db.instances ++ [(instanceId,
            ({ id := instanceId, firstSeen := now, lastActive := now,
               status := Status.connected, userAgent := userAgent, ipAddress := ip,
               userId := userId, connectionCount := 1,
               lastDisconnect := none } : Instance))]
          statistics :=
            { db.statistics with totalConnections := db.statistics.totalConnections + 1 } }
    | some inst =>
        let inst1 :=
          { inst with
            lastActive := now, status := Status.connected,
            connectionCount := inst.connectionCount + 1 }
        { db with instances := aUpd instanceId (fun _ => inst1) db.instances }
  let db2 :=
    match aFind userId db1.users with
    | none =>
        { db1 with users := db1.users ++ [(userId,
            ({ id := userId, firstSeen := now, lastActive := now, instances := [instanceId],
               totalMessages := 0, totalReactions := 0 } : V210.User))] }
    | some u =>
        if instanceId ∈ u.instances then db1
        else
          let u1 := { u with instances := u.instances ++ [instanceId] }
          { db1 with users := aUpd userId (fun _ => u1) db1.users }
  let db3 :=
    { db2 with statistics :=
        { db2.statistics with
          userAgents := aBump userAgent db2.statistics.userAgents
          dailyActive := aBump today db2.statistics.dailyActive } }
  updateConnectionStats db3 now

/-- `POST /api/disconnect-instances` of server.js: a no-op for an unknown
instance. -/
def disconnect (db : DB) (instanceId reason : String) (now : ℤ) (today : String) : DB :=
  match aFind instanceId db.instances with
  | none => db
  | some inst =>
      let inst1 :=
        { inst with
          status := Status.disconnected, lastActive := now,
          lastDisconnect := some { timestamp := now, reason := reason } }
      let db1 :=
        { db with
          instances := aUpd instanceId (fun _ => inst1) db.instances
          statistics :=
            { db.statistics with
              disconnections := db.statistics.disconnections + 1
              dailyDisconnections := aBump today db.statistics.dailyDisconnections } }
      updateConnectionStats db1 now

end V200

/-! Association-list lemmas used throughout the proofs. -/

theorem aFind_aUpd_self (k : String) (f : α → α) (l : List (String × α)) :
    aFind k (aUpd k f l) = (aFind k l).map f := by
  induction l with
  | nil => rfl
  | cons p r ih =>
      by_cases h : p.1 = k
      · simp [aFind, aUpd, h]
      · simp [aFind, aUpd, h, ih]

theorem aFind_aUpd_ne (k id : String) (f : α → α) (l : List (String × α))
    (h : id ≠ k) : aFind id (aUpd k f l) = aFind id l := by
  induction l with
  | nil => rfl
  | cons p r ih =>
      have hk : ¬ k = id := fun hc => h hc.symm
      by_cases hp : p.1 = k
      · simp [aFind, aUpd, hp, hk]
      · by_cases hq : p.1 = id
        · simp [aFind, aUpd, hp, hq, h, hk]
        · simp [aFind, aUpd, hp, hq, ih]

theorem aFind_append (id : String) (l l2 : List (String × α)) :
    aFind id (l ++ l2) = ((aFind id l).or (aFind id l2)) := by
  induction l with
  | nil => rfl
  | cons p r ih =>
      by_cases h : p.1 = id
      · simp [aFind, h]
      · simp [aFind, h, ih]

theorem aFind_map_aUpd (k id : String) (f : α → α) (g : α → β) (l : List (String × α))
    (hf : ∀ v, g (f v) = g v) : (aFind id (aUpd k f l)).map g = (aFind id l).map g := by
  by_cases h : id = k
  · subst h
    rw [aFind_aUpd_self]
    cases aFind id l with
    | none => rfl
    | some v => simp [hf]
  · rw [aFind_aUpd_ne _ _ _ _ h]

theorem aFind_isSome_aUpd (k id : String) (f : α → α) (l : List (String × α)) :
    (aFind id (aUpd k f l)).isSome = (aFind id l).isSome := by
  by_cases h : id = k
  · subst h
    rw [aFind_aUpd_self]
    cases aFind id l <;> rfl
  · rw [aFind_aUpd_ne _ _ _ _ h]

theorem aFind_append_of_isSome (id : String) (l l2 : List (String × α))
    (h : (aFind id l).isSome) : aFind id (l ++ l2) = aFind id l := by
  rw [aFind_append]
  cases hf : aFind id l with
  | none => rw [hf] at h; simp at h
  | some v => rfl

namespace V210

/-- The instance's `lastActive`, `none` for an absent id. -/
def instLastActive (st : State) (id : String) : Option ℤ :=
  (aFind id st.db.instances).map (fun i => i.lastActive)

/-- The instance's `lastHeartbeat`, `none` for an absent id. -/
def instLastHeartbeat (st : State) (id : String) : Option ℤ :=
  (aFind id st.db.instances).map (fun i => i.lastHeartbeat)

/-- The user's `firstSeen`, `none` for an absent id. -/
def userFirstSeen (st : State) (uid : String) : Option ℤ :=
  (aFind uid st.db.users).map (fun u => u.firstSeen)

end V210

/-- Concrete ids used by the demonstration runs. -/
def uidA : String := "u1"

def mintA : String := "m1"

def mintB : String := "m2"

def uaA : String := "ua"

def ipA : String := "ip"

def dayA : String := "d"

/-- part_001 state after one connect of user `u1` minting instance `m1`. -/
def c1st1 : V210.State :=
  V210.step V210.initialState (V210.Event.connect uidA none uaA ipA mintA 10 dayA)

/-- The same state after a second, duplicate connect that resolves to the
already-connected instance `m1`. -/
def c1st2 : V210.State :=
  V210.step c1st1 (V210.Event.connect uidA (some mintA) uaA ipA mintB 20 dayA)

/-- C1, counterexample: after `Connect(u1)` the instance `m1` is connected
with `connectionCount = 1`; a duplicate connect resolving to `m1` leaves
`totalConnections` and `reconnections` unchanged but raises `connectionCount`
to 2, so it does change a counter, contrary to the claim. -/
theorem claim_C1_counterexample :
    V210.instStatus c1st1 mintA = some Status.connected ∧
    V210.instCc c1st1 mintA = 1 ∧
    V210.instCc c1st2 mintA = 2 ∧
    c1st2.db.statistics.totalConnections = c1st1.db.statistics.totalConnections ∧
    c1st2.db.statistics.reconnections = c1st1.db.statistics.reconnections := by
  decide

/-- C1, amended: a Connect event whose resolved instance already exists with
status connected refreshes that instance's `lastActive`/`lastHeartbeat` and
leaves the global `totalConnections`, `reconnections` and `heartbeats`
counters unchanged, but increments the instance's `connectionCount` by 1. -/
theorem claim_C1_amended (st : V210.State) (uid sid ua ip mint : String) (now : ℤ)
    (today : String) (h : V210.instStatus st sid = some Status.connected) :
    V210.instCc (V210.step st (V210.Event.connect uid (some sid) ua ip mint now today)) sid
      = V210.instCc st sid + 1 ∧
    V210.instLastActive (V210.step st (V210.Event.connect uid (some sid) ua ip mint now today)) sid
      = some now ∧
    V210.instLastHeartbeat (V210.step st (V210.Event.connect uid (some sid) ua ip mint now today)) sid
      = some now ∧
    (V210.step st (V210.Event.connect uid (some sid) ua ip mint now today)).db.statistics.totalConnections
      = st.db.statistics.totalConnections ∧
    (V210.step st (V210.Event.connect uid (some sid) ua ip mint now today)).db.statistics.reconnections
      = st.db.statistics.reconnections ∧
    (V210.step st (V210.Event.connect uid (some sid) ua ip mint now today)).db.statistics.heartbeats
      = st.db.statistics.heartbeats := by
  rw [V210.instStatus, Option.map_eq_some'] at h
  obtain ⟨inst, hfind, hstat⟩ := h
  cases huser : aFind uid st.db.users with
  | none =>
      simp [V210.step, V210.connect, V210.resolveId, hfind, huser, hstat,
        V210.updateConnectionStats, V210.connectUpdate, V210.instCc, V210.instLastActive,
        V210.instLastHeartbeat, aFind_aUpd_self]
  | some u =>
      by_cases hmem : sid ∈ u.instances
      · simp [V210.step, V210.connect, V210.resolveId, hfind, huser, hstat, hmem,
          V210.updateConnectionStats, V210.connectUpdate, V210.instCc, V210.instLastActive,
          V210.instLastHeartbeat, aFind_aUpd_self]
      · simp [V210.step, V210.connect, V210.resolveId, hfind, huser, hstat, hmem,
          V210.updateConnectionStats, V210.connectUpdate, V210.instCc, V210.instLastActive,
          V210.instLastHeartbeat, aFind_aUpd_self]

/-- C1, witness for the amended theorem at the concrete duplicate-connect
run. -/
theorem claim_C1_witness :
    V210.instCc c1st2 mintA = V210.instCc c1st1 mintA + 1 ∧
    V210.instLastActive c1st2 mintA = some 20 ∧
    V210.instLastHeartbeat c1st2 mintA = some 20 ∧
    c1st2.db.statistics.totalConnections = c1st1.db.statistics.totalConnections ∧
    c1st2.db.statistics.reconnections = c1st1.db.statistics.reconnections ∧
    c1st2.db.statistics.heartbeats = c1st1.db.statistics.heartbeats :=
  claim_C1_amended c1st1 uidA mintA uaA ipA mintB 20 dayA (by decide)

/-- C7: Disconnect, Heartbeat and SystemInfo on an id absent from `instances`
leave the dataset (and the whole server state) unchanged, in the part_001
variant and for server.js's disconnect handler. -/
theorem claim_C7_unknown_id_noop (st : V210.State) (db : V200.DB)
    (id reason payload : String) (now : ℤ) (today : String)
    (h1 : aFind id st.db.instances = none) (h2 : aFind id db.instances = none) :
    V210.heartbeat st id now = st ∧
    V210.disconnect st id reason now today = st ∧
    V210.systemInfo st id payload now = st ∧
    V200.disconnect db id reason now today = db := by
  refine ⟨?_, ?_, ?_, ?_⟩
  · rw [V210.heartbeat, h1]
  · rw [V210.disconnect, h1]
  · rw [V210.systemInfo, h1]
  · rw [V200.disconnect, h2]

/-- C7, witness: the no-op at the empty initial datasets for id `i9`. -/
theorem claim_C7_witness :
    V210.heartbeat V210.initialState "i9" 5 = V210.initialState ∧
    V210.disconnect V210.initialState "i9" reasonNormal 5 dayA = V210.initialState ∧
    V210.systemInfo V210.initialState "i9" uaA 5 = V210.initialState ∧
    V200.disconnect V200.initial "i9" reasonNormal 5 dayA = V200.initial :=
  claim_C7_unknown_id_noop V210.initialState V200.initial "i9" reasonNormal uaA 5 dayA
    (by decide) (by decide)

/-- part_000 dataset after Connect(i1) at 10, Disconnect(i1, normal) at 50 and
Connect(i1) again at 90. -/
def c3db : V130.DB :=
  V130.replay V130.initial
    [V130.Event.connect "i1" (some uidA) uaA ipA none 10 dayA,
     V130.Event.disconnect "i1" reasonNormal 50,
     V130.Event.connect "i1" (some uidA) uaA ipA none 90 dayA]

/-- C3: evaluating the scenario Connect, Disconnect(normal), Connect on
part_000.  The counters behave as claimed (`reconnections = 1`,
`connectionCount = 2`), but the recorded session list is two sessions that
both still have `end = null` and `duration = null`: the disconnect handler
closed the detached `currentSession` copy produced by the JSON round trip,
never the session stored in the list, and the reconnect then overwrote that
copy before replacing it. -/
theorem claim_C3_evaluation :
    c3db.statistics.reconnections = 1 ∧
    V130.instCc c3db "i1" = 2 ∧
    V130.instDc c3db "i1" = 1 ∧
    ((aFind "i1" c3db.instances).map
      (fun i => i.sessions.map (fun s => (s.endTime, s.duration))))
      = some [(none, none), (none, none)] ∧
    V130.openSessions c3db "i1" = 2 := by
  decide

/-- server.js dataset after a connect that supplies the id `marxbot_2` on the
empty dataset: the supplied id is not yet a key, so it is used as-is. -/
def c8db1 : V200.DB :=
  V200.connect V200.initial uidA (some "marxbot_2") uaA ipA 10 dayA

/-- C8, counterexample: on `c8db1` (one instance, keyed `marxbot_2`) a connect
without a caller-supplied id mints `marxbot_${1+1} = marxbot_2`, which is
already a key of the instances map at the time it is assigned, contradicting
the claimed freshness of minted ids; the connect is then treated as an update
of the existing instance (`totalConnections` stays 1). -/
theorem claim_C8_counterexample :
    (V200.resolveId c8db1 none).2 = true ∧
    (aFind (V200.resolveId c8db1 none).1 c8db1.instances).isSome = true ∧
    (V200.connect c8db1 "u2" none uaA ipA 20 dayA).instances.length = 1 ∧
    (V200.connect c8db1 "u2" none uaA ipA 20 dayA).statistics.totalConnections = 1 := by
  decide

/-- C8, amended: in server.js's connect, a caller-supplied id is used exactly
when it is not already a key of the instances map (even the caller's own live
id is discarded and replaced); otherwise, and when no id is supplied, the id
`marxbot_{n+1}` (n = current number of instances) is minted with no registry
lookup, and that minted id is fresh only under the extra assumption that no
existing key already has that name.  (In the part_001 variant a registry
lookup for the userId is attempted, but `loadInstanceStorage` always yields
the empty registry, see `V210.loadInstanceStorage`.) -/
theorem claim_C8_amended (db : V200.DB) (id : String)
    (hfresh : aFind (V200.mintName db) db.instances = none)
    (hid : aFind id db.instances = none) :
    (V200.resolveId db none).2 = true ∧
    (V200.resolveId db none).1 = V200.mintName db ∧
    aFind (V200.resolveId db none).1 db.instances = none ∧
    V200.resolveId db (some id) = (id, false) := by
  refine ⟨rfl, rfl, hfresh, ?_⟩
  simp [V200.resolveId, hid]

/-- C8, witness for the amended theorem on the empty dataset. -/
theorem claim_C8_witness :
    (V200.resolveId V200.initial none).2 = true ∧
    (V200.resolveId V200.initial none).1 = V200.mintName V200.initial ∧
    aFind (V200.resolveId V200.initial none).1 V200.initial.instances = none ∧
    V200.resolveId V200.initial (some "i1") = ("i1", false) :=
  claim_C8_amended V200.initial "i1" (by decide) (by decide)

/-! Bounds lemmas for the part_000 classifier (claim C6). -/

theorem jsRound_nonneg (q : ℚ) (h : 0 ≤ q) : 0 ≤ jsRound q := by
  apply Int.le_floor.2
  push_cast
  linarith

theorem jsRound_le_hundred (q : ℚ) (h : q ≤ 100) : jsRound q ≤ 100 := by
  apply Int.lt_add_one_iff.1
  apply Int.floor_lt.2
  push_cast
  linarith

theorem jsRound_hundred : jsRound 100 = 100 := by
  unfold jsRound
  rw [Int.floor_eq_iff]
  norm_num

namespace V130

theorem healthDeductions_nonneg (i : Instance) : 0 ≤ healthDeductions i := by
  unfold healthDeductions
  have h1 : (0:ℚ) ≤ (if tagFrequent ∈ i.qualityIssues then (30:ℚ) else 0) := by
    split_ifs <;> norm_num
  have h2 : (0:ℚ) ≤ (if tagShort ∈ i.qualityIssues then (20:ℚ) else 0) := by
    split_ifs <;> norm_num
  have h3 : (0:ℚ) ≤ (if tagIp ∈ i.qualityIssues then (15:ℚ) else 0) := by
    split_ifs <;> norm_num
  have h4 : (0:ℚ) ≤ (if rateGT i.disconnectionCount i.connectionCount then (20:ℚ) else 0) := by
    split_ifs <;> norm_num
  have h5 : (0:ℚ) ≤
      (if i.avgSessionDuration < 60000 then (1 - i.avgSessionDuration / 60000) * 15 else 0) := by
    split_ifs with h
    · have hd : i.avgSessionDuration / 60000 < 1 := (div_lt_one (by norm_num)).2 h
      nlinarith
    · norm_num
  linarith

theorem calculateHealthScore_bounds (i : Instance) :
    0 ≤ calculateHealthScore i ∧ calculateHealthScore i ≤ 100 := by
  unfold calculateHealthScore
  refine ⟨le_max_left 0 _, max_le (by norm_num) ?_⟩
  apply jsRound_le_hundred
  have := healthDeductions_nonneg i
  linarith

theorem calculateStabilityScore_bounds (db : DB) :
    0 ≤ calculateStabilityScore db ∧ calculateStabilityScore db ≤ 100 := by
  unfold calculateStabilityScore
  split_ifs with h
  · refine ⟨le_max_left 0 _, max_le (by norm_num) ?_⟩
    have : (0:ℚ) ≤ (failedConnections db : ℚ) / (db.statistics.totalConnections : ℚ) * 100 := by
      positivity
    linarith
  · norm_num

theorem calculateConnectionQuality_bounds (db : DB) :
    0 ≤ calculateConnectionQuality db ∧ calculateConnectionQuality db ≤ 100 := by
  unfold calculateConnectionQuality
  split_ifs with h
  · refine ⟨le_max_left 0 _, max_le (by norm_num) ?_⟩
    have : (0:ℚ) ≤ (failedConnections db : ℚ) / (connectionEventCount db : ℚ) * 100 := by
      positivity
    linarith
  · norm_num

theorem datasetHealthScore_bounds (db : DB)
    (h : ∀ p ∈ db.instances, 0 ≤ p.2.healthScore ∧ p.2.healthScore ≤ 100) :
    0 ≤ datasetHealthScore db ∧ datasetHealthScore db ≤ 100 := by
  unfold datasetHealthScore
  have hmem : ∀ x ∈ healthScores db, 0 ≤ x ∧ x ≤ 100 := by
    intro x hx
    rw [healthScores, List.mem_map] at hx
    obtain ⟨p, hp, rfl⟩ := hx
    exact h p hp
  split_ifs with hlen
  · have hlen' : (0:ℚ) < ((healthScores db).length : ℚ) := by exact_mod_cast hlen
    have hsum0 : (0:ℤ) ≤ (healthScores db).sum :=
      List.sum_nonneg (fun x hx => (hmem x hx).1)
    have hsum100 : (healthScores db).sum ≤ (healthScores db).length • (100:ℤ) :=
      List.sum_le_card_nsmul (healthScores db) 100 (fun x hx => (hmem x hx).2)
    rw [nsmul_eq_mul] at hsum100
    have hsum100z : ((healthScores db).sum : ℤ) ≤ 100 * ((healthScores db).length : ℤ) := by
      linarith
    have hsum100' : (((healthScores db).sum : ℤ) : ℚ) ≤ 100 * ((healthScores db).length : ℚ) := by
      exact_mod_cast hsum100z
    constructor
    · apply jsRound_nonneg
      positivity
    · apply jsRound_le_hundred
      exact (div_le_iff₀ hlen').2 (by linarith)
  · constructor
    · apply jsRound_nonneg; norm_num
    · apply jsRound_le_hundred; norm_num

end V130

/-- C6: the part_000 classifier scores are bounded: every computed
per-instance `healthScore` lies in [0,100]; for every dataset whose cached
per-instance health scores lie in [0,100] (as every reachable dataset's do),
the dataset-level `stabilityScore`, `healthScore` and `connectionQuality`
written by `updateQualityMetrics` lie in [0,100]; and each equals the neutral
100 when its denominator is zero (no connections, no connection-type events,
no instances respectively). -/
theorem claim_C6_classifier_bounds (i : V130.Instance) (db : V130.DB)
    (h : ∀ p ∈ db.instances, 0 ≤ p.2.healthScore ∧ p.2.healthScore ≤ 100) :
    (0 ≤ V130.calculateHealthScore i ∧ V130.calculateHealthScore i ≤ 100) ∧
    (0 ≤ V130.calculateStabilityScore db ∧ V130.calculateStabilityScore db ≤ 100) ∧
    (0 ≤ V130.calculateConnectionQuality db ∧ V130.calculateConnectionQuality db ≤ 100) ∧
    (0 ≤ V130.datasetHealthScore db ∧ V130.datasetHealthScore db ≤ 100) ∧
    (db.statistics.totalConnections = 0 → V130.calculateStabilityScore db = 100) ∧
    (V130.connectionEventCount db = 0 → V130.calculateConnectionQuality db = 100) ∧
    (db.instances = [] → V130.datasetHealthScore db = 100) := by
  refine ⟨V130.calculateHealthScore_bounds i, V130.calculateStabilityScore_bounds db,
    V130.calculateConnectionQuality_bounds db, V130.datasetHealthScore_bounds db h,
    ?_, ?_, ?_⟩
  · intro h0
    unfold V130.calculateStabilityScore
    simp [h0]
  · intro h0
    unfold V130.calculateConnectionQuality
    simp [h0]
  · intro h0
    unfold V130.datasetHealthScore
    simp [V130.healthScores, h0, jsRound_hundred]

/-- A concrete instance record used to instantiate the C6 bounds. -/
def c6inst : V130.Instance :=
  { firstSeen := 0, lastActive := 0, lastReconnect := 0, status := Status.connected,
    userAgent := uaA, ipAddress := ipA, ipHistory := [ipA], userId := none,
    connectionCount := 1, disconnectionCount := 0, sessions := [],
    currentSession := none, qualityIssues := [tagStable], avgSessionDuration := 0,
    healthScore := 100 }

/-- C6, witness: the bounds at a concrete instance and the empty dataset. -/
theorem claim_C6_witness :
    (0 ≤ V130.calculateHealthScore c6inst ∧ V130.calculateHealthScore c6inst ≤ 100) ∧
    (0 ≤ V130.calculateStabilityScore V130.initial ∧
      V130.calculateStabilityScore V130.initial ≤ 100) ∧
    (0 ≤ V130.calculateConnectionQuality V130.initial ∧
      V130.calculateConnectionQuality V130.initial ≤ 100) ∧
    (0 ≤ V130.datasetHealthScore V130.initial ∧ V130.datasetHealthScore V130.initial ≤ 100) ∧
    (V130.initial.statistics.totalConnections = 0 →
      V130.calculateStabilityScore V130.initial = 100) ∧
    (V130.connectionEventCount V130.initial = 0 →
      V130.calculateConnectionQuality V130.initial = 100) ∧
    (V130.initial.instances = [] → V130.datasetHealthScore V130.initial = 100) :=
  claim_C6_classifier_bounds c6inst V130.initial
    (by intro p hp; simp [V130.initial] at hp)

namespace V130

/-! Effect lemmas for the part_000 handlers, used by the invariant proofs. -/

theorem updateConnectionStats_instances (db : DB) (now : ℤ) :
    (updateConnectionStats db now).instances = db.instances := rfl

theorem updateQualityMetrics_instances (db : DB) :
    (updateQualityMetrics db).instances = db.instances := rfl

theorem closeStale_sessions (inst : Instance) (now : ℤ) :
    (closeStale inst now).sessions = inst.sessions := by
  unfold closeStale
  cases hcs : inst.currentSession <;> split_ifs <;> simp

theorem closeStale_connectionCount (inst : Instance) (now : ℤ) :
    (closeStale inst now).connectionCount = inst.connectionCount := by
  unfold closeStale
  cases hcs : inst.currentSession <;> split_ifs <;> simp

theorem closeStale_disconnectionCount (inst : Instance) (now : ℤ) :
    (closeStale inst now).disconnectionCount = inst.disconnectionCount := by
  unfold closeStale
  cases hcs : inst.currentSession <;> split_ifs <;> simp

theorem reconnectInstance_sessions (inst : Instance) (ua ip : String)
    (loc : Option String) (now : ℤ) :
    (reconnectInstance inst ua ip loc now).sessions
      = inst.sessions ++ [newSession ua ip loc now] := by
  unfold reconnectInstance
  simp [closeStale_sessions]

theorem reconnectInstance_connectionCount (inst : Instance) (ua ip : String)
    (loc : Option String) (now : ℤ) :
    (reconnectInstance inst ua ip loc now).connectionCount = inst.connectionCount + 1 := by
  unfold reconnectInstance
  simp [closeStale_connectionCount]

theorem reconnectInstance_disconnectionCount (inst : Instance) (ua ip : String)
    (loc : Option String) (now : ℤ) :
    (reconnectInstance inst ua ip loc now).disconnectionCount
      = inst.disconnectionCount := by
  unfold reconnectInstance
  simp [closeStale_disconnectionCount]

theorem reconnectInstance_status (inst : Instance) (ua ip : String)
    (loc : Option String) (now : ℤ) :
    (reconnectInstance inst ua ip loc now).status = Status.connected := by
  unfold reconnectInstance
  simp

theorem disconnectInstance_sessions (inst : Instance) (reason : String) (now : ℤ) :
    (disconnectInstance inst reason now).sessions = inst.sessions := by
  unfold disconnectInstance
  cases hcs : inst.currentSession <;> simp

theorem disconnectInstance_connectionCount (inst : Instance) (reason : String) (now : ℤ) :
    (disconnectInstance inst reason now).connectionCount = inst.connectionCount := by
  unfold disconnectInstance
  cases hcs : inst.currentSession <;> simp

theorem disconnectInstance_disconnectionCount (inst : Instance) (reason : String) (now : ℤ) :
    (disconnectInstance inst reason now).disconnectionCount
      = inst.disconnectionCount + 1 := by
  unfold disconnectInstance
  cases hcs : inst.currentSession <;> simp

theorem disconnectInstance_status (inst : Instance) (reason : String) (now : ℤ) :
    (disconnectInstance inst reason now).status = Status.disconnected := by
  unfold disconnectInstance
  cases hcs : inst.currentSession <;> simp

theorem openCount_append_new (l : List Session) (ua ip : String)
    (loc : Option String) (now : ℤ) :
    openCount (l ++ [newSession ua ip loc now]) = openCount l + 1 := by
  simp [openCount, List.filter_append, newSession]

/-- The instance map after a part_000 connect: append a fresh record or
update the found one; nothing else in the handler touches `instances`. -/
theorem connect_instances (db : DB) (i : String) (u : Option String) (ua ip : String)
    (loc : Option String) (now : ℤ) (today : String) :
    (connect db i u ua ip loc now today).instances =
      (match aFind i db.instances with
       | none => db.instances ++ [(i, freshInstance u ua ip loc now)]
       | some inst => aUpd i (fun _ => reconnectInstance inst ua ip loc now) db.instances) := by
  unfold connect
  cases hf : aFind i db.instances with
  | none =>
      cases u with
      | none => simp [updateQualityMetrics_instances, updateConnectionStats_instances]
      | some uid =>
          simp only [updateQualityMetrics_instances, updateConnectionStats_instances]
          split_ifs <;> rfl
  | some inst =>
      cases u with
      | none => simp [updateQualityMetrics_instances, updateConnectionStats_instances]
      | some uid =>
          simp only [updateQualityMetrics_instances, updateConnectionStats_instances]
          split_ifs <;> rfl

/-- The instance map after a part_000 disconnect. -/
theorem disconnect_instances (db : DB) (i reason : String) (now : ℤ) :
    (disconnect db i reason now).instances =
      (match aFind i db.instances with
       | none => db.instances
       | some inst => aUpd i (fun _ => disconnectInstance inst reason now) db.instances) := by
  unfold disconnect
  cases hf : aFind i db.instances <;>
    simp [updateQualityMetrics_instances, updateConnectionStats_instances]

/-- The instance map after a part_000 track. -/
theorem track_instances (db : DB) (i u : String) (now : ℤ) :
    (track db i u now).instances =
      (match aFind i db.instances with
       | none => db.instances
       | some inst => aUpd i (fun _ => { inst with lastActive := now }) db.instances) := by
  unfold track
  cases hu : aFind u db.users <;> cases hf : aFind i db.instances <;> simp [hu, hf]

end V130

namespace V130

/-- One step preserves "open sessions = connectionCount" for every
instance. -/
theorem step_open_eq_cc (db : DB) (e : Event)
    (h : ∀ id, openSessions db id = instCc db id) (id : String) :
    openSessions (step db e) id = instCc (step db e) id := by
  cases e with
  | connect i u ua ip loc now today =>
      unfold step
      simp only [openSessions, instCc, connect_instances]
      cases hf : aFind i db.instances with
      | none =>
          by_cases hid : id = i
          · subst hid
            rw [aFind_append, hf]
            simp [aFind, openCount, freshInstance, newSession]
          · rw [aFind_append]
            have h2 : aFind id [(i, freshInstance u ua ip loc now)] = none := by
              have hne : ¬ (i = id) := fun hc => hid hc.symm
              simp [aFind, hne]
            rw [h2, Option.or_none]
            simpa [openSessions, instCc] using h id
      | some inst =>
          by_cases hid : id = i
          · subst hid
            rw [aFind_aUpd_self, hf]
            have h3 := h id
            simp [openSessions, instCc, hf] at h3
            simp [reconnectInstance_sessions, openCount_append_new,
              reconnectInstance_connectionCount, h3]
          · rw [aFind_aUpd_ne _ _ _ _ hid]
            simpa [openSessions, instCc] using h id
  | disconnect i reason now =>
      unfold step
      simp only [openSessions, instCc, disconnect_instances]
      cases hf : aFind i db.instances with
      | none => simpa [openSessions, instCc] using h id
      | some inst =>
          by_cases hid : id = i
          · subst hid
            rw [aFind_aUpd_self, hf]
            have h3 := h id
            simp [openSessions, instCc, hf] at h3
            simp [disconnectInstance_sessions, disconnectInstance_connectionCount, h3]
          · rw [aFind_aUpd_ne _ _ _ _ hid]
            simpa [openSessions, instCc] using h id
  | track i u now =>
      unfold step
      simp only [openSessions, instCc, track_instances]
      cases hf : aFind i db.instances with
      | none => simpa [openSessions, instCc] using h id
      | some inst =>
          by_cases hid : id = i
          · subst hid
            rw [aFind_aUpd_self, hf]
            have h3 := h id
            simp [openSessions, instCc, hf] at h3
            simpa using h3
          · rw [aFind_aUpd_ne _ _ _ _ hid]
            simpa [openSessions, instCc] using h id

end V130

/-- part_000 dataset after two connects for the same instance id (a duplicate
connect on an already-connected instance). -/
def c2db : V130.DB :=
  V130.step (V130.step V130.initial (V130.Event.connect "i1" (some uidA) uaA ipA none 10 dayA))
    (V130.Event.connect "i1" (some uidA) uaA ipA none 20 dayA)

/-- C2, counterexample: after Connect(i1), Connect(i1) the instance is
connected but has two recorded sessions with no `end`, not one: the duplicate
connect pushed a second open session without closing anything. -/
theorem claim_C2_counterexample :
    V130.instStatus c2db "i1" = some Status.connected ∧
    V130.openSessions c2db "i1" = 2 := by
  decide

/-- C2, amended: in every dataset reachable from the initial part_000 dataset
the number of an instance's recorded sessions with no `end` equals that
instance's `connectionCount` (so it is 1 for a fresh connected instance, but
it is not determined by `status`: stored sessions are never closed, because
disconnect closes only the detached `currentSession` copy, and every repeated
connect appends one more open session). -/
theorem claim_C2_amended (db : V130.DB) (h : V130.Reachable db) :
    ∀ id, V130.openSessions db id = V130.instCc db id := by
  induction h with
  | init => intro id; rfl
  | step db' e _ ih => exact fun id => V130.step_open_eq_cc db' e ih id

/-- part_000 dataset after a single connect. -/
def c2dbW : V130.DB :=
  V130.step V130.initial (V130.Event.connect "i1" (some uidA) uaA ipA none 10 dayA)

/-- C2, witness for the amended invariant after one connect. -/
theorem claim_C2_witness :
    V130.openSessions c2dbW "i1" = V130.instCc c2dbW "i1" :=
  claim_C2_amended c2dbW
    (V130.Reachable.step V130.initial
      (V130.Event.connect "i1" (some uidA) uaA ipA none 10 dayA) V130.Reachable.init) "i1"

namespace V130

/-- Discipline under which the spec's counter inequality holds: Disconnect is
only delivered to instances that are not already disconnected; Connect and
Track are unrestricted. -/
def WfEvent (db : DB) : Event → Prop
  | Event.disconnect i _ _ => instStatus db i ≠ some Status.disconnected
  | _ => True

/-- Datasets reachable from the initial part_000 dataset under the `WfEvent`
discipline. -/
inductive ReachableWF : DB → Prop where
  | init : ReachableWF initial
  | step (db : DB) (e : Event) : ReachableWF db → WfEvent db e → ReachableWF (step db e)

/-- 1 for a currently connected instance, 0 otherwise: the slack of the
strengthened counter invariant. -/
def statusBonus (db : DB) (id : String) : ℕ :=
  if instStatus db id = some Status.connected then 1 else 0

/-- One well-formed step preserves the strengthened counter invariant. -/
theorem step_dc_bonus (db : DB) (e : Event) (hwf : WfEvent db e)
    (h : ∀ id, instDc db id + statusBonus db id ≤ instCc db id) (id : String) :
    instDc (step db e) id + statusBonus (step db e) id ≤ instCc (step db e) id := by
  cases e with
  | connect i u ua ip loc now today =>
      unfold step
      simp only [instDc, instCc, statusBonus, instStatus, connect_instances]
      cases hf : aFind i db.instances with
      | none =>
          by_cases hid : id = i
          · subst hid
            rw [aFind_append, hf]
            simp [aFind, freshInstance]
          · rw [aFind_append]
            have h2 : aFind id [(i, freshInstance u ua ip loc now)] = none := by
              have hne : ¬ (i = id) := fun hc => hid hc.symm
              simp [aFind, hne]
            rw [h2, Option.or_none]
            simpa [instDc, instCc, statusBonus, instStatus] using h id
      | some inst =>
          by_cases hid : id = i
          · subst hid
            rw [aFind_aUpd_self, hf]
            have h3 := h id
            simp [instDc, instCc, statusBonus, instStatus, hf] at h3
            simp [reconnectInstance_disconnectionCount, reconnectInstance_connectionCount,
              reconnectInstance_status]
            split_ifs at h3 <;> omega
          · rw [aFind_aUpd_ne _ _ _ _ hid]
            simpa [instDc, instCc, statusBonus, instStatus] using h id
  | disconnect i reason now =>
      unfold step
      simp only [instDc, instCc, statusBonus, instStatus, disconnect_instances]
      cases hf : aFind i db.instances with
      | none => simpa [instDc, instCc, statusBonus, instStatus] using h id
      | some inst =>
          by_cases hid : id = i
          · subst hid
            have hwf' : instStatus db id ≠ some Status.disconnected := hwf
            have hstat : inst.status = Status.connected := by
              rw [instStatus, hf] at hwf'
              simp only [Option.map_some'] at hwf'
              cases hs : inst.status with
              | connected => rfl
              | disconnected => rw [hs] at hwf'; simp at hwf'
            have h3 := h id
            simp [instDc, instCc, statusBonus, instStatus, hf, hstat] at h3
            rw [aFind_aUpd_self, hf]
            simp [disconnectInstance_disconnectionCount, disconnectInstance_connectionCount,
              disconnectInstance_status]
            omega
          · rw [aFind_aUpd_ne _ _ _ _ hid]
            simpa [instDc, instCc, statusBonus, instStatus] using h id
  | track i u now =>
      unfold step
      simp only [instDc, instCc, statusBonus, instStatus, track_instances]
      cases hf : aFind i db.instances with
      | none => simpa [instDc, instCc, statusBonus, instStatus] using h id
      | some inst =>
          by_cases hid : id = i
          · subst hid
            rw [aFind_aUpd_self, hf]
            have h3 := h id
            simp [instDc, instCc, statusBonus, instStatus, hf] at h3
            simpa using h3
          · rw [aFind_aUpd_ne _ _ _ _ hid]
            simpa [instDc, instCc, statusBonus, instStatus] using h id

end V130

/-- part_000 dataset after Connect(i1), Disconnect(i1), Disconnect(i1): the
second disconnect hits an already-disconnected instance. -/
def c4db : V130.DB :=
  V130.step
    (V130.step (V130.step V130.initial (V130.Event.connect "i1" (some uidA) uaA ipA none 10 dayA))
      (V130.Event.disconnect "i1" reasonNormal 20))
    (V130.Event.disconnect "i1" reasonNormal 30)

/-- C4, counterexample: the part_000 disconnect handler increments
`disconnectionCount` without checking the current status, so a repeated
Disconnect yields `connectionCount = 1 < 2 = disconnectionCount`. -/
theorem claim_C4_counterexample :
    V130.instCc c4db "i1" = 1 ∧ V130.instDc c4db "i1" = 2 := by
  decide

/-- C4, amended: `connectionCount ≥ disconnectionCount` holds for every
instance after every event, provided Disconnect events are only delivered to
instances that are not already disconnected; a repeated Disconnect on an
already-disconnected instance increments `disconnectionCount` unboundedly and
violates the inequality. -/
theorem claim_C4_amended (db : V130.DB) (h : V130.ReachableWF db) :
    ∀ id, V130.instDc db id ≤ V130.instCc db id := by
  have inv : ∀ id, V130.instDc db id + V130.statusBonus db id ≤ V130.instCc db id := by
    induction h with
    | init =>
        intro id
        simp [V130.instDc, V130.instCc, V130.statusBonus, V130.instStatus, V130.initial, aFind]
    | step db' e _ hwf ih => exact fun id => V130.step_dc_bonus db' e hwf ih id
  exact fun id => le_trans (Nat.le_add_right _ _) (inv id)

/-- part_000 dataset after one well-formed connect/disconnect cycle. -/
def c4dbW : V130.DB :=
  V130.step (V130.step V130.initial (V130.Event.connect "i1" (some uidA) uaA ipA none 10 dayA))
    (V130.Event.disconnect "i1" reasonNormal 20)

/-- C4, witness for the amended invariant after a well-formed
connect/disconnect cycle. -/
theorem claim_C4_witness : V130.instDc c4dbW "i1" ≤ V130.instCc c4dbW "i1" :=
  claim_C4_amended c4dbW
    (V130.ReachableWF.step _ (V130.Event.disconnect "i1" reasonNormal 20)
      (V130.ReachableWF.step _ (V130.Event.connect "i1" (some uidA) uaA ipA none 10 dayA)
        V130.ReachableWF.init trivial)
      (show V130.instStatus
          (V130.step V130.initial (V130.Event.connect "i1" (some uidA) uaA ipA none 10 dayA))
          "i1" ≠ some Status.disconnected by decide))
    "i1"

namespace V130

/-- After a connect, `currentConnections` holds some recomputed value `c` and
`peakConnections` is ratcheted against it. -/
theorem connect_current_peak (db : DB) (i : String) (u : Option String) (ua ip : String)
    (loc : Option String) (now : ℤ) (today : String) :
    ∃ c, (connect db i u ua ip loc now today).statistics.currentConnections = c ∧
      (connect db i u ua ip loc now today).statistics.peakConnections =
        (if c > db.statistics.peakConnections then c else db.statistics.peakConnections) := by
  unfold connect
  cases hf : aFind i db.instances with
  | none =>
      cases u with
      | none => exact ⟨_, rfl, rfl⟩
      | some uid =>
          simp only []
          split_ifs <;> exact ⟨_, rfl, rfl⟩
  | some inst =>
      cases u with
      | none =>
          simp only []
          split_ifs <;> exact ⟨_, rfl, rfl⟩
      | some uid =>
          simp only []
          split_ifs <;> exact ⟨_, rfl, rfl⟩

/-- After a disconnect, either nothing changed (unknown id) or the ratchet
was applied. -/
theorem disconnect_current_peak (db : DB) (i reason : String) (now : ℤ) :
    disconnect db i reason now = db ∨
    (∃ c, (disconnect db i reason now).statistics.currentConnections = c ∧
      (disconnect db i reason now).statistics.peakConnections =
        (if c > db.statistics.peakConnections then c else db.statistics.peakConnections)) := by
  unfold disconnect
  cases hf : aFind i db.instances with
  | none => exact Or.inl rfl
  | some inst => exact Or.inr ⟨_, rfl, rfl⟩

/-- Track does not touch `currentConnections` or `peakConnections`. -/
theorem track_current_peak (db : DB) (i u : String) (now : ℤ) :
    (track db i u now).statistics.currentConnections = db.statistics.currentConnections ∧
    (track db i u now).statistics.peakConnections = db.statistics.peakConnections := by
  unfold track
  cases hu : aFind u db.users <;> cases hf : aFind i db.instances <;> simp [hu, hf]

/-- One step's effect on the ratchet: the new peak is the max of the old peak
and the new current value, and the peak stays an upper bound. -/
theorem step_peak (db : DB) (e : Event)
    (h : db.statistics.currentConnections ≤ db.statistics.peakConnections) :
    (step db e).statistics.peakConnections =
      max db.statistics.peakConnections (step db e).statistics.currentConnections ∧
    (step db e).statistics.currentConnections ≤ (step db e).statistics.peakConnections := by
  cases e with
  | connect i u ua ip loc now today =>
      obtain ⟨c, hc, hp⟩ := connect_current_peak db i u ua ip loc now today
      simp only [step]
      rw [hc, hp]
      constructor
      · rw [Nat.max_def]; split_ifs <;> omega
      · split_ifs <;> omega
  | disconnect i reason now =>
      rcases disconnect_current_peak db i reason now with heq | ⟨c, hc, hp⟩
      · simp only [step]
        rw [heq]
        exact ⟨(max_eq_left h).symm, h⟩
      · simp only [step]
        rw [hc, hp]
        constructor
        · rw [Nat.max_def]; split_ifs <;> omega
        · split_ifs <;> omega
  | track i u now =>
      obtain ⟨hc, hp⟩ := track_current_peak db i u now
      simp only [step]
      rw [hc, hp]
      exact ⟨(max_eq_left h).symm, h⟩

/-- Replay invariant: a running maximum seeded with the current peak tracks
`peakConnections` exactly, and the peak bounds the current value. -/
theorem replay_peak (evs : List Event) : ∀ (db : DB) (m : ℕ),
    m = db.statistics.peakConnections →
    db.statistics.currentConnections ≤ db.statistics.peakConnections →
    (evs.foldl
      (fun acc e =>
        let db' := step acc.2 e
        (max acc.1 db'.statistics.currentConnections, db')) (m, db)).1
      = (replay db evs).statistics.peakConnections ∧
    (replay db evs).statistics.currentConnections ≤
      (replay db evs).statistics.peakConnections := by
  induction evs with
  | nil =>
      intro db m h1 h2
      exact ⟨by simpa [replay] using h1, by simpa [replay] using h2⟩
  | cons e rest ih =>
      intro db m h1 h2
      have hs := step_peak db e h2
      have hmax : max m (step db e).statistics.currentConnections
          = (step db e).statistics.peakConnections := by
        rw [h1, hs.1]
      have := ih (step db e) (max m (step db e).statistics.currentConnections) hmax hs.2
      simpa [replay, List.foldl] using this

end V130

/-- C5: along every replay from the initial part_000 dataset,
`peakConnections` equals the maximum value `currentConnections` has taken at
any point of the replay (`maxCurrent`, which changes only at the
`updateConnectionStats` recomputation points), is an upper bound for
`currentConnections`, and never decreases at the next event. -/
theorem claim_C5_peak_ratchet (evs : List V130.Event) :
    (V130.replay V130.initial evs).statistics.peakConnections
      = V130.maxCurrent V130.initial evs ∧
    (V130.replay V130.initial evs).statistics.currentConnections ≤
      (V130.replay V130.initial evs).statistics.peakConnections ∧
    ∀ e : V130.Event,
      (V130.replay V130.initial evs).statistics.peakConnections ≤
        (V130.step (V130.replay V130.initial evs) e).statistics.peakConnections := by
  have h := V130.replay_peak evs V130.initial 0 rfl (by simp [V130.initial])
  refine ⟨?_, h.2, ?_⟩
  · rw [V130.maxCurrent]
    exact h.1.symm
  · intro e
    have hs := V130.step_peak (V130.replay V130.initial evs) e h.2
    rw [hs.1]
    exact le_max_left _ _

namespace V130

/-! Counter monotonicity for part_000 (claim C9). -/

theorem connect_counts (db : DB) (i : String) (u : Option String) (ua ip : String)
    (loc : Option String) (now : ℤ) (today : String) :
    db.statistics.totalConnections ≤
      (connect db i u ua ip loc now today).statistics.totalConnections ∧
    db.statistics.disconnections ≤
      (connect db i u ua ip loc now today).statistics.disconnections ∧
    db.statistics.reconnections ≤
      (connect db i u ua ip loc now today).statistics.reconnections ∧
    db.statistics.totalMessages ≤
      (connect db i u ua ip loc now today).statistics.totalMessages := by
  unfold connect
  cases hf : aFind i db.instances <;> cases u <;> simp only [hf] <;> (try split_ifs) <;>
    refine ⟨?_, ?_, ?_, ?_⟩ <;>
      (simp [updateQualityMetrics, updateConnectionStats] <;> omega)

theorem disconnect_counts (db : DB) (i reason : String) (now : ℤ) :
    db.statistics.totalConnections ≤ (disconnect db i reason now).statistics.totalConnections ∧
    db.statistics.disconnections ≤ (disconnect db i reason now).statistics.disconnections ∧
    db.statistics.reconnections ≤ (disconnect db i reason now).statistics.reconnections ∧
    db.statistics.totalMessages ≤ (disconnect db i reason now).statistics.totalMessages := by
  unfold disconnect
  cases hf : aFind i db.instances <;> (try split_ifs) <;>
    refine ⟨?_, ?_, ?_, ?_⟩ <;>
      (simp [updateQualityMetrics, updateConnectionStats] <;> omega)

theorem track_counts (db : DB) (i u : String) (now : ℤ) :
    db.statistics.totalConnections ≤ (track db i u now).statistics.totalConnections ∧
    db.statistics.disconnections ≤ (track db i u now).statistics.disconnections ∧
    db.statistics.reconnections ≤ (track db i u now).statistics.reconnections ∧
    db.statistics.totalMessages ≤ (track db i u now).statistics.totalMessages := by
  unfold track
  cases hu : aFind u db.users <;> cases hf : aFind i db.instances <;>
    refine ⟨?_, ?_, ?_, ?_⟩ <;> (simp [hu, hf] <;> omega)

/-- One part_000 step never decreases a per-instance counter. -/
theorem step_instCcDc (db : DB) (e : Event) (id : String) :
    instCc db id ≤ instCc (step db e) id ∧ instDc db id ≤ instDc (step db e) id := by
  cases e with
  | connect i u ua ip loc now today =>
      simp only [step, instCc, instDc, connect_instances]
      cases hf : aFind i db.instances with
      | none =>
          by_cases hid : id = i
          · subst hid
            rw [aFind_append, hf]
            simp [aFind, freshInstance]
          · rw [aFind_append]
            have h2 : aFind id [(i, freshInstance u ua ip loc now)] = none := by
              have hne : ¬ (i = id) := fun hc => hid hc.symm
              simp [aFind, hne]
            rw [h2, Option.or_none]
            exact ⟨le_refl _, le_refl _⟩
      | some inst =>
          by_cases hid : id = i
          · subst hid
            rw [aFind_aUpd_self, hf]
            simp [hf, reconnectInstance_connectionCount,
              reconnectInstance_disconnectionCount]
          · rw [aFind_aUpd_ne _ _ _ _ hid]
            exact ⟨le_refl _, le_refl _⟩
  | disconnect i reason now =>
      simp only [step, instCc, instDc, disconnect_instances]
      cases hf : aFind i db.instances with
      | none => exact ⟨le_refl _, le_refl _⟩
      | some inst =>
          by_cases hid : id = i
          · subst hid
            rw [aFind_aUpd_self, hf]
            simp [hf, disconnectInstance_connectionCount,
              disconnectInstance_disconnectionCount]
          · rw [aFind_aUpd_ne _ _ _ _ hid]
            exact ⟨le_refl _, le_refl _⟩
  | track i u now =>
      simp only [step, instCc, instDc, track_instances]
      cases hf : aFind i db.instances with
      | none => exact ⟨le_refl _, le_refl _⟩
      | some inst =>
          by_cases hid : id = i
          · subst hid
            rw [aFind_aUpd_self, hf]
            simp [hf]
          · rw [aFind_aUpd_ne _ _ _ _ hid]
            exact ⟨le_refl _, le_refl _⟩

/-- One part_000 step never decreases any of the claimed counters. -/
theorem step_mono (db : DB) (e : Event) (id : String) :
    db.statistics.totalConnections ≤ (step db e).statistics.totalConnections ∧
    db.statistics.disconnections ≤ (step db e).statistics.disconnections ∧
    db.statistics.reconnections ≤ (step db e).statistics.reconnections ∧
    db.statistics.totalMessages ≤ (step db e).statistics.totalMessages ∧
    instCc db id ≤ instCc (step db e) id ∧
    instDc db id ≤ instDc (step db e) id := by
  have hi := step_instCcDc db e id
  cases e with
  | connect i u ua ip loc now today =>
      have hc := connect_counts db i u ua ip loc now today
      exact ⟨hc.1, hc.2.1, hc.2.2.1, hc.2.2.2, hi.1, hi.2⟩
  | disconnect i reason now =>
      have hc := disconnect_counts db i reason now
      exact ⟨hc.1, hc.2.1, hc.2.2.1, hc.2.2.2, hi.1, hi.2⟩
  | track i u now =>
      have hc := track_counts db i u now
      exact ⟨hc.1, hc.2.1, hc.2.2.1, hc.2.2.2, hi.1, hi.2⟩

/-- Replay-level monotonicity for part_000. -/
theorem replay_mono (evs : List Event) : ∀ (db : DB) (id : String),
    db.statistics.totalConnections ≤ (replay db evs).statistics.totalConnections ∧
    db.statistics.disconnections ≤ (replay db evs).statistics.disconnections ∧
    db.statistics.reconnections ≤ (replay db evs).statistics.reconnections ∧
    db.statistics.totalMessages ≤ (replay db evs).statistics.totalMessages ∧
    instCc db id ≤ instCc (replay db evs) id ∧
    instDc db id ≤ instDc (replay db evs) id := by
  induction evs with
  | nil =>
      intro db id
      exact ⟨le_refl _, le_refl _, le_refl _, le_refl _, le_refl _, le_refl _⟩
  | cons e rest ih =>
      intro db id
      have h1 := step_mono db e id
      have h2 := ih (step db e) id
      simp only [replay, List.foldl] at h2 ⊢
      exact ⟨le_trans h1.1 h2.1, le_trans h1.2.1 h2.2.1,
        le_trans h1.2.2.1 h2.2.2.1, le_trans h1.2.2.2.1 h2.2.2.2.1,
        le_trans h1.2.2.2.2.1 h2.2.2.2.2.1, le_trans h1.2.2.2.2.2 h2.2.2.2.2.2⟩

end V130

namespace V210

/-! Effect lemmas for the part_001 handlers (claims C9 and C10). -/

theorem connect_counts210 (st : State) (u : String) (sid : Option String)
    (ua ip mint : String) (now : ℤ) (today : String) :
    st.db.statistics.totalConnections ≤
      (connect st u sid ua ip mint now today).db.statistics.totalConnections ∧
    st.db.statistics.disconnections ≤
      (connect st u sid ua ip mint now today).db.statistics.disconnections ∧
    st.db.statistics.reconnections ≤
      (connect st u sid ua ip mint now today).db.statistics.reconnections ∧
    st.db.statistics.totalMessages ≤
      (connect st u sid ua ip mint now today).db.statistics.totalMessages ∧
    st.db.statistics.heartbeats ≤
      (connect st u sid ua ip mint now today).db.statistics.heartbeats := by
  unfold connect
  cases hf : aFind (resolveId st.db u sid mint).1 st.db.instances <;>
    cases hu : aFind u st.db.users <;>
      refine ⟨?_, ?_, ?_, ?_, ?_⟩ <;>
        (simp [hf, hu, updateConnectionStats] <;> (try split_ifs) <;> (try simp) <;>
          (try omega))

theorem heartbeat_counts (st : State) (i : String) (now : ℤ) :
    st.db.statistics.totalConnections ≤
      (heartbeat st i now).db.statistics.totalConnections ∧
    st.db.statistics.disconnections ≤ (heartbeat st i now).db.statistics.disconnections ∧
    st.db.statistics.reconnections ≤ (heartbeat st i now).db.statistics.reconnections ∧
    st.db.statistics.totalMessages ≤ (heartbeat st i now).db.statistics.totalMessages ∧
    st.db.statistics.heartbeats ≤ (heartbeat st i now).db.statistics.heartbeats := by
  unfold heartbeat
  cases hf : aFind i st.db.instances <;>
    refine ⟨?_, ?_, ?_, ?_, ?_⟩ <;> (simp <;> (try omega))

theorem disconnect_counts210210 (st : State) (i reason : String) (now : ℤ) (today : String) :
    st.db.statistics.totalConnections ≤
      (disconnect st i reason now today).db.statistics.totalConnections ∧
    st.db.statistics.disconnections ≤
      (disconnect st i reason now today).db.statistics.disconnections ∧
    st.db.statistics.reconnections ≤
      (disconnect st i reason now today).db.statistics.reconnections ∧
    st.db.statistics.totalMessages ≤
      (disconnect st i reason now today).db.statistics.totalMessages ∧
    st.db.statistics.heartbeats ≤
      (disconnect st i reason now today).db.statistics.heartbeats := by
  unfold disconnect
  cases hf : aFind i st.db.instances <;>
    refine ⟨?_, ?_, ?_, ?_, ?_⟩ <;> (simp [updateConnectionStats] <;> (try omega))

set_option maxHeartbeats 1000000 in
theorem track_counts210 (st : State) (i u : String) (et mt a g s r : Option String)
    (now : ℤ) :
    st.db.statistics.totalConnections ≤
      (track st i u et mt a g s r now).db.statistics.totalConnections ∧
    st.db.statistics.disconnections ≤
      (track st i u et mt a g s r now).db.statistics.disconnections ∧
    st.db.statistics.reconnections ≤
      (track st i u et mt a g s r now).db.statistics.reconnections ∧
    st.db.statistics.totalMessages ≤
      (track st i u et mt a g s r now).db.statistics.totalMessages ∧
    st.db.statistics.heartbeats ≤
      (track st i u et mt a g s r now).db.statistics.heartbeats := by
  unfold track
  cases hu : aFind u st.db.users <;> cases hf : aFind i st.db.instances <;>
    refine ⟨?_, ?_, ?_, ?_, ?_⟩ <;>
      (simp [hu, hf, aFind_aUpd_self] <;> (try split_ifs) <;>
        (try cases mt) <;> (try simp [aFind_aUpd_self, hf]) <;> (try omega))

theorem systemInfo_counts (st : State) (i p : String) (now : ℤ) :
    st.db.statistics.totalConnections ≤
      (systemInfo st i p now).db.statistics.totalConnections ∧
    st.db.statistics.disconnections ≤ (systemInfo st i p now).db.statistics.disconnections ∧
    st.db.statistics.reconnections ≤ (systemInfo st i p now).db.statistics.reconnections ∧
    st.db.statistics.totalMessages ≤ (systemInfo st i p now).db.statistics.totalMessages ∧
    st.db.statistics.heartbeats ≤ (systemInfo st i p now).db.statistics.heartbeats := by
  unfold systemInfo
  cases hf : aFind i st.db.instances <;>
    refine ⟨?_, ?_, ?_, ?_, ?_⟩ <;> (simp <;> (try omega))

end V210

/-- Composing two in-place updates at the same key. -/
theorem aUpd_aUpd_self (k : String) (f g : α → α) (l : List (String × α)) :
    aUpd k f (aUpd k g l) = aUpd k (fun v => f (g v)) l := by
  induction l with
  | nil => rfl
  | cons p r ih =>
      by_cases hp : p.1 = k
      · simp [aUpd, hp]
      · simp [aUpd, hp, ih]

namespace V210

/-- The instance map after a part_001 connect: append a fresh record under
the resolved id or update the found one. -/
theorem connect_instances210 (st : State) (u : String) (sid : Option String)
    (ua ip mint : String) (now : ℤ) (today : String) :
    (connect st u sid ua ip mint now today).db.instances =
      (match aFind (resolveId st.db u sid mint).1 st.db.instances with
       | none => st.db.instances ++
           [((resolveId st.db u sid mint).1,
             freshInstance (resolveId st.db u sid mint).1 u ua ip now)]
       | some inst => aUpd (resolveId st.db u sid mint).1
           (fun _ => connectUpdate inst now) st.db.instances) := by
  unfold connect
  generalize resolveId st.db u sid mint = r
  cases hf : aFind r.1 st.db.instances <;>
    cases hu : aFind u st.db.users <;>
      simp [hf, hu, updateConnectionStats] <;> (try split_ifs) <;> simp

/-- The instance map after a part_001 track: the found instance's
`lastActive` (and for heartbeat events `lastHeartbeat`) is refreshed. -/
theorem track_instances210 (st : State) (i u : String) (et mt a g s r : Option String)
    (now : ℤ) :
    (track st i u et mt a g s r now).db.instances =
      (match aFind i st.db.instances with
       | none => st.db.instances
       | some inst =>
           if et = some etHeartbeat then
             aUpd i (fun _ => { inst with lastActive := now, lastHeartbeat := now })
               st.db.instances
           else aUpd i (fun _ => { inst with lastActive := now }) st.db.instances) := by
  unfold track
  cases hu : aFind u st.db.users <;> cases hf : aFind i st.db.instances <;>
    simp only [hf, hu] <;>
      split_ifs <;>
        (try cases mt) <;>
          simp [hf, aFind_aUpd_self, aUpd_aUpd_self] <;>
            simp_all [etMessage, etGroupUpdate, etStatusUpdate, etMessageReaction, etHeartbeat]

end V210

namespace V210

/-- One part_001 step never decreases an instance's `connectionCount`. -/
theorem step_instCc (st : State) (e : Event) (id : String) :
    instCc st id ≤ instCc (step st e) id := by
  cases e with
  | connect u sid ua ip mint now today =>
      simp only [step, instCc, connect_instances210]
      cases hf : aFind (resolveId st.db u sid mint).1 st.db.instances with
      | none =>
          by_cases hid : id = (resolveId st.db u sid mint).1
          · subst hid
            rw [aFind_append, hf]
            simp [aFind, freshInstance]
          · rw [aFind_append]
            have h2 : aFind id [((resolveId st.db u sid mint).1,
                freshInstance (resolveId st.db u sid mint).1 u ua ip now)] = none := by
              have hne : ¬ ((resolveId st.db u sid mint).1 = id) := fun hc => hid hc.symm
              simp [aFind, hne]
            rw [h2, Option.or_none]
      | some inst =>
          by_cases hid : id = (resolveId st.db u sid mint).1
          · subst hid
            rw [aFind_aUpd_self, hf]
            simp [hf, connectUpdate]
          · rw [aFind_aUpd_ne _ _ _ _ hid]
  | heartbeat i now =>
      simp only [step]
      unfold heartbeat
      simp only [instCc]
      cases hf : aFind i st.db.instances with
      | none => exact le_refl _
      | some inst =>
          by_cases hid : id = i
          · subst hid
            simp [aFind_aUpd_self, hf]
          · simp [aFind_aUpd_ne _ _ _ _ hid]
  | disconnect i reason now today =>
      simp only [step]
      unfold disconnect
      simp only [instCc]
      cases hf : aFind i st.db.instances with
      | none => exact le_refl _
      | some inst =>
          by_cases hid : id = i
          · subst hid
            simp [updateConnectionStats, aFind_aUpd_self, hf]
          · simp [updateConnectionStats, aFind_aUpd_ne _ _ _ _ hid]
  | track i u et mt a g s r now =>
      simp only [step, instCc, track_instances210]
      cases hf : aFind i st.db.instances with
      | none => exact le_refl _
      | some inst =>
          by_cases hid : id = i
          · subst hid
            split_ifs <;> rw [aFind_aUpd_self, hf] <;> simp [hf]
          · split_ifs <;> rw [aFind_aUpd_ne _ _ _ _ hid]
  | systemInfo i p now =>
      simp only [step]
      unfold systemInfo
      simp only [instCc]
      cases hf : aFind i st.db.instances with
      | none => exact le_refl _
      | some inst =>
          by_cases hid : id = i
          · subst hid
            simp [aFind_aUpd_self, hf]
          · simp [aFind_aUpd_ne _ _ _ _ hid]

/-- One part_001 step never decreases any of the claimed global counters or
an instance's `connectionCount`. -/
theorem step_mono210 (st : State) (e : Event) (id : String) :
    st.db.statistics.totalConnections ≤ (step st e).db.statistics.totalConnections ∧
    st.db.statistics.disconnections ≤ (step st e).db.statistics.disconnections ∧
    st.db.statistics.reconnections ≤ (step st e).db.statistics.reconnections ∧
    st.db.statistics.totalMessages ≤ (step st e).db.statistics.totalMessages ∧
    st.db.statistics.heartbeats ≤ (step st e).db.statistics.heartbeats ∧
    instCc st id ≤ instCc (step st e) id := by
  have hi := step_instCc st e id
  cases e with
  | connect u sid ua ip mint now today =>
      have hc := connect_counts210 st u sid ua ip mint now today
      exact ⟨hc.1, hc.2.1, hc.2.2.1, hc.2.2.2.1, hc.2.2.2.2, hi⟩
  | heartbeat i now =>
      have hc := heartbeat_counts st i now
      exact ⟨hc.1, hc.2.1, hc.2.2.1, hc.2.2.2.1, hc.2.2.2.2, hi⟩
  | disconnect i reason now today =>
      have hc := disconnect_counts210210 st i reason now today
      exact ⟨hc.1, hc.2.1, hc.2.2.1, hc.2.2.2.1, hc.2.2.2.2, hi⟩
  | track i u et mt a g s r now =>
      have hc := track_counts210 st i u et mt a g s r now
      exact ⟨hc.1, hc.2.1, hc.2.2.1, hc.2.2.2.1, hc.2.2.2.2, hi⟩
  | systemInfo i p now =>
      have hc := systemInfo_counts st i p now
      exact ⟨hc.1, hc.2.1, hc.2.2.1, hc.2.2.2.1, hc.2.2.2.2, hi⟩

/-- Replay-level monotonicity for part_001. -/
theorem replay_mono210 (evs : List Event) : ∀ (st : State) (id : String),
    st.db.statistics.totalConnections ≤ (replay st evs).db.statistics.totalConnections ∧
    st.db.statistics.disconnections ≤ (replay st evs).db.statistics.disconnections ∧
    st.db.statistics.reconnections ≤ (replay st evs).db.statistics.reconnections ∧
    st.db.statistics.totalMessages ≤ (replay st evs).db.statistics.totalMessages ∧
    st.db.statistics.heartbeats ≤ (replay st evs).db.statistics.heartbeats ∧
    instCc st id ≤ instCc (replay st evs) id := by
  induction evs with
  | nil =>
      intro st id
      exact ⟨le_refl _, le_refl _, le_refl _, le_refl _, le_refl _, le_refl _⟩
  | cons e rest ih =>
      intro st id
      have h1 := step_mono210 st e id
      have h2 := ih (step st e) id
      simp only [replay, List.foldl] at h2 ⊢
      exact ⟨le_trans h1.1 h2.1, le_trans h1.2.1 h2.2.1,
        le_trans h1.2.2.1 h2.2.2.1, le_trans h1.2.2.2.1 h2.2.2.2.1,
        le_trans h1.2.2.2.2.1 h2.2.2.2.2.1, le_trans h1.2.2.2.2.2 h2.2.2.2.2.2⟩

end V210

/-- C9: along every event sequence, in the part_001 model the global
counters `totalConnections`, `disconnections`, `reconnections`,
`totalMessages` and `heartbeats` and every instance's `connectionCount` are
non-decreasing, and in the part_000 model (which also records per-instance
`disconnectionCount`) the corresponding global counters and every instance's
`connectionCount` and `disconnectionCount` are non-decreasing. -/
theorem claim_C9_monotonicity (st : V210.State) (evs1 : List V210.Event)
    (db : V130.DB) (evs0 : List V130.Event) (id : String) :
    (st.db.statistics.totalConnections ≤
        (V210.replay st evs1).db.statistics.totalConnections ∧
      st.db.statistics.disconnections ≤
        (V210.replay st evs1).db.statistics.disconnections ∧
      st.db.statistics.reconnections ≤
        (V210.replay st evs1).db.statistics.reconnections ∧
      st.db.statistics.totalMessages ≤
        (V210.replay st evs1).db.statistics.totalMessages ∧
      st.db.statistics.heartbeats ≤
        (V210.replay st evs1).db.statistics.heartbeats ∧
      V210.instCc st id ≤ V210.instCc (V210.replay st evs1) id) ∧
    (db.statistics.totalConnections ≤
        (V130.replay db evs0).statistics.totalConnections ∧
      db.statistics.disconnections ≤ (V130.replay db evs0).statistics.disconnections ∧
      db.statistics.reconnections ≤ (V130.replay db evs0).statistics.reconnections ∧
      db.statistics.totalMessages ≤ (V130.replay db evs0).statistics.totalMessages ∧
      V130.instCc db id ≤ V130.instCc (V130.replay db evs0) id ∧
      V130.instDc db id ≤ V130.instDc (V130.replay db evs0) id) :=
  ⟨V210.replay_mono210 evs1 st id, V130.replay_mono evs0 db id⟩

namespace V210

/-! User-map frame lemmas for part_001 (claim C10). -/

theorem heartbeat_users (st : State) (i : String) (now : ℤ) :
    (heartbeat st i now).db.users = st.db.users := by
  unfold heartbeat
  cases hf : aFind i st.db.instances <;> simp [hf]

theorem disconnect_users (st : State) (i reason : String) (now : ℤ) (today : String) :
    (disconnect st i reason now today).db.users = st.db.users := by
  unfold disconnect
  cases hf : aFind i st.db.instances <;> simp [hf, updateConnectionStats]

theorem systemInfo_users (st : State) (i p : String) (now : ℤ) :
    (systemInfo st i p now).db.users = st.db.users := by
  unfold systemInfo
  cases hf : aFind i st.db.instances <;> simp [hf]

/-- The user-map upsert performed by part_001's connect handler. -/
def connectUserUpsert (st : State) (u iid : String) (now : ℤ) : List (String × User) :=
  match aFind u st.db.users with
  | none => st.db.users ++ [(u, freshUser u iid now)]
  | some usr =>
      if iid ∈ usr.instances then st.db.users
      else aUpd u (fun _ => { usr with instances := usr.instances ++ [iid] }) st.db.users

/-- The user map after a part_001 connect. -/
theorem connect_users (st : State) (u : String) (sid : Option String)
    (ua ip mint : String) (now : ℤ) (today : String) :
    (connect st u sid ua ip mint now today).db.users =
      connectUserUpsert st u (resolveId st.db u sid mint).1 now := by
  unfold connect connectUserUpsert
  generalize resolveId st.db u sid mint = r
  cases hf : aFind r.1 st.db.instances <;>
    cases hu : aFind u st.db.users <;>
      simp [hf, hu, updateConnectionStats] <;> (try split_ifs) <;> simp

/-- Presence and `firstSeen` of any user survive the connect upsert. -/
theorem connectUserUpsert_pres (st : State) (u iid : String) (now : ℤ) (uid : String)
    (usr0 : User) (husr0 : aFind uid st.db.users = some usr0) :
    (aFind uid (connectUserUpsert st u iid now)).isSome = true ∧
    (aFind uid (connectUserUpsert st u iid now)).map (fun x => x.firstSeen)
      = some usr0.firstSeen := by
  cases hu : aFind u st.db.users with
  | none =>
      simp only [connectUserUpsert, hu]
      refine ⟨?_, ?_⟩ <;> (rw [aFind_append, husr0] ; rfl)
  | some usr =>
      simp only [connectUserUpsert, hu]
      split_ifs
      · rw [husr0]
        exact ⟨rfl, rfl⟩
      · by_cases hud : uid = u
        · subst hud
          have husu : usr0 = usr := Option.some.inj (husr0.symm.trans hu)
          constructor
          · rw [aFind_isSome_aUpd, husr0]
            rfl
          · rw [aFind_aUpd_self, hu, husu]
            rfl
        · constructor
          · rw [aFind_aUpd_ne _ _ _ _ hud, husr0]
            rfl
          · rw [aFind_aUpd_ne _ _ _ _ hud, husr0]
            rfl

/-- The user-map upsert performed by part_001's track handler. -/
def trackUserUpsert (st : State) (i u : String) (now : ℤ) : List (String × User) :=
  match aFind u st.db.users with
  | none => st.db.users ++ [(u, freshUser u i now)]
  | some usr =>
      aUpd u
        (fun _ => { usr with
          lastActive := now,
          instances := if i ∈ usr.instances then usr.instances else usr.instances ++ [i] })
        st.db.users

/-- The per-event-type user counter bump of part_001's track handler. -/
def trackUserBump (et : Option String) (u : String) (l : List (String × User)) :
    List (String × User) :=
  if et = some etMessage then
    aUpd u (fun x => { x with totalMessages := x.totalMessages + 1 }) l
  else if et = some etMessageReaction then
    aUpd u (fun x => { x with totalReactions := x.totalReactions + 1 }) l
  else l

set_option maxHeartbeats 1000000 in
/-- The user map after a part_001 track is the upsert followed by the
counter bump. -/
theorem track_users (st : State) (i u : String) (et mt a g s r : Option String)
    (now : ℤ) :
    (track st i u et mt a g s r now).db.users =
      trackUserBump et u (trackUserUpsert st i u now) := by
  unfold track trackUserBump trackUserUpsert
  cases hu : aFind u st.db.users <;> cases hf : aFind i st.db.instances <;>
    simp only [hu, hf] <;>
      split_ifs <;>
        (try cases mt) <;>
          simp [hf, aFind_aUpd_self] <;>
            simp_all [etMessage, etGroupUpdate, etStatusUpdate, etMessageReaction, etHeartbeat]

/-- Presence and `firstSeen` of any user survive the track upsert. -/
theorem trackUserUpsert_pres (st : State) (i u : String) (now : ℤ) (uid : String)
    (usr0 : User) (husr0 : aFind uid st.db.users = some usr0) :
    (aFind uid (trackUserUpsert st i u now)).isSome = true ∧
    (aFind uid (trackUserUpsert st i u now)).map (fun x => x.firstSeen)
      = some usr0.firstSeen := by
  cases hu : aFind u st.db.users with
  | none =>
      simp only [trackUserUpsert, hu]
      refine ⟨?_, ?_⟩ <;> (rw [aFind_append, husr0] ; rfl)
  | some usr =>
      simp only [trackUserUpsert, hu]
      by_cases hud : uid = u
      · subst hud
        have husu : usr0 = usr := Option.some.inj (husr0.symm.trans hu)
        constructor
        · rw [aFind_isSome_aUpd, husr0]
          rfl
        · rw [aFind_aUpd_self, hu, husu]
          rfl
      · constructor
        · rw [aFind_aUpd_ne _ _ _ _ hud, husr0]
          rfl
        · rw [aFind_aUpd_ne _ _ _ _ hud, husr0]
          rfl

/-- Presence and `firstSeen` of any user survive the track bump. -/
theorem trackUserBump_pres (et : Option String) (u uid : String)
    (l : List (String × User)) :
    (aFind uid (trackUserBump et u l)).isSome = (aFind uid l).isSome ∧
    (aFind uid (trackUserBump et u l)).map (fun x => x.firstSeen)
      = (aFind uid l).map (fun x => x.firstSeen) := by
  unfold trackUserBump
  split_ifs
  · exact ⟨aFind_isSome_aUpd _ _ _ _, aFind_map_aUpd _ _ _ _ _ (fun v => rfl)⟩
  · exact ⟨aFind_isSome_aUpd _ _ _ _, aFind_map_aUpd _ _ _ _ _ (fun v => rfl)⟩
  · exact ⟨rfl, rfl⟩

/-- No part_001 event removes a user: a user present before an event is
present after it with the same `firstSeen`. -/
theorem step_users_pres (st : State) (e : Event) (uid : String)
    (h : (aFind uid st.db.users).isSome = true) :
    (aFind uid (step st e).db.users).isSome = true ∧
    (aFind uid (step st e).db.users).map (fun x => x.firstSeen)
      = (aFind uid st.db.users).map (fun x => x.firstSeen) := by
  obtain ⟨usr0, husr0⟩ := Option.isSome_iff_exists.1 h
  cases e with
  | connect u sid ua ip mint now today =>
      simp only [step, connect_users]
      have hp := connectUserUpsert_pres st u (resolveId st.db u sid mint).1 now uid usr0 husr0
      refine ⟨hp.1, ?_⟩
      rw [hp.2, husr0]
      rfl
  | heartbeat i now => simp [step, heartbeat_users, husr0]
  | disconnect i reason now today => simp [step, disconnect_users, husr0]
  | track i u et mt a g s r now =>
      simp only [step, track_users]
      have h1 := trackUserUpsert_pres st i u now uid usr0 husr0
      have h2 := trackUserBump_pres et u uid (trackUserUpsert st i u now)
      refine ⟨?_, ?_⟩
      · rw [h2.1, h1.1]
      · rw [h2.2, h1.2, husr0]
        rfl
  | systemInfo i p now => simp [step, systemInfo_users, husr0]

/-- The cleanup sweep touches only the instance map. -/
theorem cleanup_frame (db : DB) (now : ℤ) :
    (cleanupInactiveInstances db now).users = db.users ∧
    (cleanupInactiveInstances db now).statistics = db.statistics ∧
    (cleanupInactiveInstances db now).settings = db.settings :=
  ⟨rfl, rfl, rfl⟩

/-- The maintenance task touches only `settings.lastMaintenance`. -/
theorem maintenance_frame (db : DB) (ts : String) :
    (ensurePersistentData db ts).users = db.users ∧
    (ensurePersistentData db ts).statistics = db.statistics ∧
    (ensurePersistentData db ts).instances = db.instances :=
  ⟨rfl, rfl, rfl⟩

end V210

/-- C10: no event-processing operation removes an entry from the users map
(a user present before any part_001 event remains present with the same
`firstSeen`), and the maintenance and stale-instance cleanup sweeps delete
entries only from the instances map (and backup files), leaving every user
record and the statistics untouched. -/
theorem claim_C10_users_frame (st : V210.State) (e : V210.Event) (uid : String)
    (db : V210.DB) (now : ℤ) (ts : String)
    (h : (aFind uid st.db.users).isSome = true) :
    ((aFind uid (V210.step st e).db.users).isSome = true ∧
      (aFind uid (V210.step st e).db.users).map (fun x => x.firstSeen)
        = (aFind uid st.db.users).map (fun x => x.firstSeen)) ∧
    ((V210.cleanupInactiveInstances db now).users = db.users ∧
      (V210.cleanupInactiveInstances db now).statistics = db.statistics) ∧
    ((V210.ensurePersistentData db ts).users = db.users ∧
      (V210.ensurePersistentData db ts).statistics = db.statistics ∧
      (V210.ensurePersistentData db ts).instances = db.instances) :=
  ⟨V210.step_users_pres st e uid h,
    ⟨(V210.cleanup_frame db now).1, (V210.cleanup_frame db now).2.1⟩,
    V210.maintenance_frame db ts⟩

/-- C10, witness: at a state holding one user, for a concrete disconnect
event. -/
theorem claim_C10_witness :
    ((aFind uidA (V210.step c1st1 (V210.Event.disconnect mintA reasonNormal 30 dayA)).db.users).isSome = true ∧
      (aFind uidA (V210.step c1st1 (V210.Event.disconnect mintA reasonNormal 30 dayA)).db.users).map
          (fun x => x.firstSeen)
        = (aFind uidA c1st1.db.users).map (fun x => x.firstSeen)) ∧
    ((V210.cleanupInactiveInstances V210.initialDB 0).users = V210.initialDB.users ∧
      (V210.cleanupInactiveInstances V210.initialDB 0).statistics = V210.initialDB.statistics) ∧
    ((V210.ensurePersistentData V210.initialDB dayA).users = V210.initialDB.users ∧
      (V210.ensurePersistentData V210.initialDB dayA).statistics = V210.initialDB.statistics ∧
      (V210.ensurePersistentData V210.initialDB dayA).instances = V210.initialDB.instances) :=
  claim_C10_users_frame c1st1 (V210.Event.disconnect mintA reasonNormal 30 dayA) uidA
    V210.initialDB 0 dayA (by decide)
